import Mathlib

/-!
Verification of the Bouldering-Simulator physics core.

Shallow embedding of the TypeScript sources:
 * `types.ts` — data model (`Point`, `Hold`, `Limb`, `ClimberState`);
 * `constants.ts` (src/unnamed/part_000) — anatomy/reach constants and
   the hold parameter tables;
 * `utils/gameUtils.ts` (src/unnamed/part_003) — `calculateDistance`,
   `calculateTickDrain`, `getFrictionPenalty`, `calculateStability`,
   `constrainBodyPosition`, `applyConstraint`, `solveIK`;
 * `App.tsx` (src/unnamed/part_001) — the per-frame simulation tick
   (`loop`), `handlePlaceLimb`, the chalk key handler, and the climber
   initialisation.

JavaScript `number` arithmetic is modelled by exact real arithmetic
(`ℝ`): `Math.sqrt` is `Real.sqrt`, `Math.cos`/`Math.sin` are
`Real.cos`/`Real.sin`, `Math.acos` is `Real.arccos`, `Math.atan2 y x`
is `Complex.arg ⟨x, y⟩` (same range `(-π, π]`, same value `0` at the
origin), and the JS `%` remainder (sign of the dividend) is `jsRem`.
Reals have no NaN/Infinity, so the dead NaN guard in `solveIK` is
omitted (noted in place).  JS object mutation inside a single tick is
sequential value-passing, reproduced by explicit state threading.
-/

namespace Boulder

/-- `HoldType` from types.ts. -/
inductive HoldType where
  | jug | crimp | sloper | pocket | volume | start | finish
deriving DecidableEq, Repr

/-- `Point {x, y}` from types.ts. -/
structure Point where
  x : ℝ
  y : ℝ

/-- `Hold` from types.ts (the optional display `color` is dropped:
no core function reads it). -/
structure Hold where
  id : String
  x : ℝ
  y : ℝ
  type : HoldType
  rotation : ℝ

/-- A limb's value when it is not `null`: `AttachedLimb` (a point plus
a `holdId`) or a plain `Point` (smearing/flagging).  A `null` limb is
`Option.none` around this type. -/
inductive LimbVal where
  | attached (x y : ℝ) (holdId : String)
  | smearing (x y : ℝ)

instance : Inhabited LimbVal := ⟨.smearing 0 0⟩

/-- The x coordinate carried by a limb value (`val.x` in JS). -/
def LimbVal.px : LimbVal → ℝ
  | .attached x _ _ => x
  | .smearing x _ => x

/-- The y coordinate carried by a limb value (`val.y` in JS). -/
def LimbVal.py : LimbVal → ℝ
  | .attached _ y _ => y
  | .smearing _ y => y

/-- `isAttached` type guard from gameUtils.ts ('holdId' in val). -/
def isAttachedV : LimbVal → Bool
  | .attached _ _ _ => true
  | .smearing _ _ => false

/-- `isAttached` applied to a possibly-null limb slot. -/
def isAttachedO : Option LimbVal → Bool
  | some v => isAttachedV v
  | none => false

/-- The `limbs` record of `ClimberState`: one slot per limb, `none` =
JS `null` (detached). -/
structure Limbs where
  leftHand : Option LimbVal
  rightHand : Option LimbVal
  leftFoot : Option LimbVal
  rightFoot : Option LimbVal

/-- `Object.values(state.limbs)` in insertion order
(leftHand, rightHand, leftFoot, rightFoot — the literal order used at
every construction site in App.tsx). -/
def Limbs.list (L : Limbs) : List (Option LimbVal) :=
  [L.leftHand, L.rightHand, L.leftFoot, L.rightFoot]

/-- The all-`null` limbs record used on every forced fall. -/
def nullLimbs : Limbs := ⟨none, none, none, none⟩

/-- `status` field of `ClimberState`. -/
inductive Status where
  | idle | climbing | falling | topped
deriving DecidableEq, Repr

/-- `armPump: {left, right}`. -/
structure ArmPump where
  left : ℝ
  right : ℝ

/-- `ClimberState` from types.ts. -/
structure ClimberState where
  limbs : Limbs
  stamina : ℝ
  armPump : ArmPump
  chalk : ℝ
  balance : ℝ
  status : Status
  centerOfMass : Point
  velocity : Point

/-! ## Constants (constants.ts) -/

def ANATOMY.torsoHeight : ℝ := 11
def ANATOMY.shoulderWidth : ℝ := 6.5
def ANATOMY.hipWidth : ℝ := 3.5
def ANATOMY.armUpper : ℝ := 6.5
def ANATOMY.armLower : ℝ := 6.5
def ANATOMY.legUpper : ℝ := 8
def ANATOMY.legLower : ℝ := 8

def MAX_REACH.hand : ℝ := ANATOMY.armUpper + ANATOMY.armLower
def MAX_REACH.foot : ℝ := ANATOMY.legUpper + ANATOMY.legLower

/-- `SIMULATION_CONFIG.climberWeightKg`. -/
def climberWeightKg : ℝ := 65

/-- `HOLD_STAMINA_DRAIN` table. -/
def HOLD_STAMINA_DRAIN : HoldType → ℝ
  | .jug => 0.005
  | .start => 0.00
  | .finish => 0.005
  | .volume => 0.01
  | .pocket => 0.04
  | .sloper => 0.05
  | .crimp => 0.1

/-- `HOLD_FRICTION` table. -/
def HOLD_FRICTION : HoldType → ℝ
  | .jug => 1.0
  | .start => 1.0
  | .finish => 1.0
  | .crimp => 0.9
  | .pocket => 0.9
  | .volume => 0.3
  | .sloper => 0.2

def INITIAL_STAMINA : ℝ := 100
def INITIAL_CHALK : ℝ := 100

/-! ## Numeric helpers -/

/-- JS truncation toward zero, as a real-valued function. -/
noncomputable def rtrunc (r : ℝ) : ℝ := if r < 0 then ⌈r⌉ else ⌊r⌋

/-- JS `%` remainder (sign follows the dividend): `x % y = x - y * trunc (x / y)`. -/
noncomputable def jsRem (x y : ℝ) : ℝ := x - y * rtrunc (x / y)

/-- JS `a || b` on numbers: `b` when `a` is falsy (`0`), else `a`.
Needed because `holdDrains[hold.type] || 0.05` turns the `start`
hold's drain `0.00` into `0.05`. -/
noncomputable def jsOrZero (a b : ℝ) : ℝ := if a = 0 then b else a

/-- `Math.atan2 y x`, range `(-π, π]`, `atan2 0 0 = 0`. -/
noncomputable def atan2 (y x : ℝ) : ℝ := Complex.arg ⟨x, y⟩

/-! ## gameUtils.ts -/

/-- `calculateDistance` (gameUtils.ts): Euclidean distance via
`Math.sqrt(Math.pow(dx,2) + Math.pow(dy,2))`. -/
noncomputable def calculateDistance (p1 p2 : Point) : ℝ :=
  Real.sqrt ((p2.x - p1.x) ^ 2 + (p2.y - p1.y) ^ 2)

/-- `getAngle` (gameUtils.ts): degrees in `[0, 360)`, 0 = right,
90 = down. -/
noncomputable def getAngle (p1 p2 : Point) : ℝ :=
  let theta := atan2 (p2.y - p1.y) (p2.x - p1.x) * (180 / Real.pi)
  if theta < 0 then 360 + theta else theta

/-- `getAngleDiff` (gameUtils.ts). -/
noncomputable def getAngleDiff (a b : ℝ) : ℝ :=
  let diff := |a - b|
  if 180 < diff then 360 - diff else diff

/-- Look up a hold by id: `holds.find(h => h.id === id)`. -/
def findHold (holds : List Hold) (hid : String) : Option Hold :=
  holds.find? (fun h => h.id = hid)

/-- Result record of `calculateTickDrain`. -/
structure DrainResult where
  core : ℝ
  leftPump : ℝ
  rightPump : ℝ

/-- The inner `calculateArmPump` closure of `calculateTickDrain`
(gameUtils.ts), with its captured context passed explicitly.  Its
`currentPump` argument is unused in the source as well. -/
noncomputable def calculateArmPump (com : Point) (balance : ℝ)
    (holds : List Hold) (holdDrains : HoldType → ℝ)
    (wallAngle : ℝ) (realismMode : Bool) (feetAttached : ℕ)
    (val : Option LimbVal) : ℝ :=
  match val with
  | some (.attached hx hy hid) =>
    match findHold holds hid with
    | none => 0
    | some hold =>
      let difficulty0 := jsOrZero (holdDrains hold.type) 0.05
      let difficulty :=
        if realismMode then
          let pullAngle := getAngle ⟨hx, hy⟩ ⟨com.x, com.y - 8⟩
          let idealAngle :=
            if hold.type = .crimp ∨ hold.type = .sloper then
              jsRem (hold.rotation + 90) 360
            else (90 : ℝ)
          let diff := getAngleDiff pullAngle idealAngle
          if 45 < diff then difficulty0 * (1.5 + diff / 45) else difficulty0
        else difficulty0
      if (hold.type = .jug ∨ hold.type = .start ∨ hold.type = .finish) ∧
          balance < 40 ∧ wallAngle < 30 then
        -0.03
      else
        let overhangMult := if 0 < wallAngle then 1 + wallAngle / 30 else 1.0
        let footSupportMult := if feetAttached = 0 then (2.5 : ℝ) else 1.0
        difficulty * overhangMult * footSupportMult * 0.8
  | _ => -0.05

/-- `calculateTickDrain` (gameUtils.ts).  The source's `loadFactor`
local is computed but never read; it is omitted here. -/
noncomputable def calculateTickDrain (state : ClimberState)
    (holds : List Hold) (holdDrains : HoldType → ℝ)
    (wallAngle : ℝ) (realismMode : Bool) : DrainResult :=
  let activeLimbsCount := (state.limbs.list.filterMap id).length
  if activeLimbsCount = 0 then ⟨0, -0.1, -0.1⟩
  else
    let instabilityCost := state.balance / 100 * (if realismMode then 0.05 else 0.03)
    let anglePenalty := if 0 < wallAngle then wallAngle / 45 * 0.06 else 0
    let feetAttached :=
      ([state.limbs.leftFoot, state.limbs.rightFoot].filterMap id).length
    let campus :=
      if feetAttached = 0 ∧ 0 < wallAngle then
        (if realismMode then (0.25 : ℝ) else 0.15)
      else 0
    let coreDrain := 0.005 + anglePenalty + instabilityCost + campus
    ⟨coreDrain,
     calculateArmPump state.centerOfMass state.balance holds holdDrains
       wallAngle realismMode feetAttached state.limbs.leftHand,
     calculateArmPump state.centerOfMass state.balance holds holdDrains
       wallAngle realismMode feetAttached state.limbs.rightHand⟩

/-- Chalk term of `getFrictionPenalty`:
`Math.max(0, 30 - chalk) * (realism ? 0.8 : 0.5)`. -/
noncomputable def chalkPenalty (chalk : ℝ) (realismMode : Bool) : ℝ :=
  max 0 (30 - chalk) * (if realismMode then 0.8 else 0.5)

/-- Per-foot term of the feet section of `getFrictionPenalty`. -/
noncomputable def footPenalty (holds : List Hold) (wallAngle : ℝ)
    (realismMode : Bool) (foot : LimbVal) : ℝ :=
  match foot with
  | .attached _ _ hid =>
    match findHold holds hid with
    | some hold =>
      let normalForceRatio := Real.cos (wallAngle * (Real.pi / 180))
      let friction :=
        HOLD_FRICTION hold.type * (if wallAngle < 0 then 1.2 else normalForceRatio)
      if friction < 0.3 then (0.3 - friction) * 50 else 0
    | none => 0
  | .smearing _ _ =>
    if wallAngle < 0 then 2
    else if wallAngle ≤ 10 then 10
    else (if realismMode then 45 else 30) + wallAngle * 1.5

/-- Feet section of `getFrictionPenalty`: campusing penalty when no
foot is active, else the per-foot penalties. -/
noncomputable def feetPenalty (limbs : Limbs) (holds : List Hold)
    (wallAngle : ℝ) (realismMode : Bool) : ℝ :=
  let feet := [limbs.leftFoot, limbs.rightFoot].filterMap id
  let hands := [limbs.leftHand, limbs.rightHand].filterMap id
  if feet.isEmpty then
    if !hands.isEmpty then
      let noFeetPenaltyBase := if wallAngle < 0 then (150 : ℝ) else 30
      let overhangCampusPenalty := max 0 (wallAngle - 10) * 0.8
      noFeetPenaltyBase + overhangCampusPenalty
    else 0
  else (feet.map (footPenalty holds wallAngle realismMode)).sum

/-- Per-hand directionality term of `getFrictionPenalty`
(a non-attached hand contributes nothing: `if (!isAttached(hand)) return`). -/
noncomputable def handPenalty (com : Point) (holds : List Hold)
    (realismMode : Bool) (hand : LimbVal) : ℝ :=
  match hand with
  | .attached hx hy hid =>
    match findHold holds hid with
    | none => 0
    | some hold =>
      let bodyPullPoint : Point := ⟨com.x, com.y - 10⟩
      let pullAngle := getAngle ⟨hx, hy⟩ bodyPullPoint
      let strictness := if realismMode then (0.5 : ℝ) else 1.0
      let idealPullAngle :=
        match hold.type with
        | .start | .finish => (90 : ℝ)
        | _ => jsRem (hold.rotation + 90) 360
      let tolerance :=
        match hold.type with
        | .jug => (160 : ℝ)
        | .crimp => 60 * strictness
        | .sloper => 40 * strictness
        | .pocket => 70 * strictness
        | .volume => 80 * strictness
        | .start | .finish => 180
      let diff := getAngleDiff pullAngle idealPullAngle
      if tolerance < diff then
        let errorFactor := (diff - tolerance) / (180 - tolerance)
        let penaltyMult := if realismMode then (80 : ℝ) else 40
        errorFactor * penaltyMult
      else 0
  | .smearing _ _ => 0

/-- `getFrictionPenalty` (gameUtils.ts): chalk + feet + hand terms,
floored at 0. -/
noncomputable def getFrictionPenalty (state : ClimberState)
    (holds : List Hold) (wallAngle : ℝ) (realismMode : Bool) : ℝ :=
  let hands := [state.limbs.leftHand, state.limbs.rightHand].filterMap id
  max 0 (chalkPenalty state.chalk realismMode
    + feetPenalty state.limbs holds wallAngle realismMode
    + (hands.map (handPenalty state.centerOfMass holds realismMode)).sum)

/-- `calculateStability` (gameUtils.ts). -/
noncomputable def calculateStability (state : ClimberState)
    (holds : List Hold) (wallAngle : ℝ) (realismMode : Bool) : ℝ :=
  let activeLimbs := state.limbs.list.filterMap id
  if activeLimbs.isEmpty then 0
  else
    let velocityMag :=
      Real.sqrt (state.velocity.x ^ 2 + state.velocity.y ^ 2)
    let dynamicFactor := 1 / (1 + velocityMag * 3)
    let supportX := (activeLimbs.map LimbVal.px).sum / (activeLimbs.length : ℝ)
    -- System centre of mass: torso 0.6, each limb slot 0.1 (default
    -- offsets for null limbs: hands com.x ∓ 6, feet com.x).
    let lxLH := match state.limbs.leftHand with
      | some v => v.px | none => state.centerOfMass.x - 6
    let lxRH := match state.limbs.rightHand with
      | some v => v.px | none => state.centerOfMass.x + 6
    let lxLF := match state.limbs.leftFoot with
      | some v => v.px | none => state.centerOfMass.x
    let lxRF := match state.limbs.rightFoot with
      | some v => v.px | none => state.centerOfMass.x
    let systemMomentX := state.centerOfMass.x * 0.6
      + lxLH * 0.1 + lxRH * 0.1 + lxLF * 0.1 + lxRF * 0.1
    let totalWeight : ℝ := 0.6 + 0.1 + 0.1 + 0.1 + 0.1
    let systemCOMX := systemMomentX / totalWeight
    let deviation0 := |systemCOMX - supportX|
    let hands := [state.limbs.leftHand, state.limbs.rightHand].filterMap id
    let feet := [state.limbs.leftFoot, state.limbs.rightFoot].filterMap id
    -- Overhang barn-door logic.
    let deviation1 :=
      if 0 < wallAngle then
        if hands.length = 1 then
          let hand := hands.headD default
          let footSpread :=
            if !feet.isEmpty then |(feet.headD default).px - (feet.getLastD default).px|
            else 0
          let isMovingSideways := 0.1 < |state.velocity.x|
          let d :=
            if footSpread < 10 ∧ isMovingSideways then
              deviation0 * (if realismMode then 4.0 else 3.0)
            else deviation0
          let swingDist := |hand.px - systemCOMX|
          d + swingDist * (if realismMode then 2.0 else 1.5)
        else deviation0
      else deviation0
    -- Slab mechanics.
    let deviation2 :=
      if wallAngle < 0 then
        if !feet.isEmpty then
          let avgFootX := (feet.map LimbVal.px).sum / (feet.length : ℝ)
          let slabDeviation := |systemCOMX - avgFootX|
          deviation1 * 0.5 + slabDeviation * 2.5
        else deviation1
      else deviation1
    let deviation := deviation2 * dynamicFactor
    let lateralVelocity := |state.velocity.x|
    let swingPenalty := lateralVelocity * (if 0 < wallAngle then 25.0 else 10.0)
    let frictionPenalty := getFrictionPenalty state holds wallAngle realismMode
    let score := frictionPenalty + swingPenalty + deviation * 2.5
    min 100 (max 0 score)

/-- `applyConstraint` (gameUtils.ts). -/
noncomputable def applyConstraint (currentCOM : Point)
    (val : Option LimbVal) (maxLen : ℝ) (offsetFromCOM : Point)
    (minLen : ℝ) : Point :=
  match val with
  | none => currentCOM
  | some v =>
    let anchorX := currentCOM.x + offsetFromCOM.x
    let anchorY := currentCOM.y + offsetFromCOM.y
    let dx := v.px - anchorX
    let dy := v.py - anchorY
    let dist := Real.sqrt (dx * dx + dy * dy)
    if maxLen < dist then
      let scale := maxLen / dist
      ⟨v.px - dx * scale - offsetFromCOM.x, v.py - dy * scale - offsetFromCOM.y⟩
    else if dist < minLen ∧ 0.1 < dist then
      let scale := minLen / dist
      ⟨v.px - dx * scale - offsetFromCOM.x, v.py - dy * scale - offsetFromCOM.y⟩
    else currentCOM

/-- The limb anchor offsets from the centre of mass used in
`constrainBodyPosition` and in the tick's auto-detach logic. -/
noncomputable def leftHandOffset : Point :=
  ⟨-ANATOMY.shoulderWidth / 2, -ANATOMY.torsoHeight * 0.85⟩
noncomputable def rightHandOffset : Point :=
  ⟨ANATOMY.shoulderWidth / 2, -ANATOMY.torsoHeight * 0.85⟩
noncomputable def leftFootOffset : Point := ⟨-ANATOMY.hipWidth / 2, 1.5⟩
noncomputable def rightFootOffset : Point := ⟨ANATOMY.hipWidth / 2, 1.5⟩

/-- One relaxation pass of `constrainBodyPosition`: hands before feet,
left before right (`applyConstraint` is the identity on `none` slots,
exactly like the `if (limbs.x)` guards in the source). -/
noncomputable def constrainPass (limbs : Limbs) (c : Point) : Point :=
  let HAND_REACH := MAX_REACH.hand * 0.99
  let FOOT_REACH := MAX_REACH.foot * 0.99
  let MIN_COMPRESSION : ℝ := 3.0
  let c1 := applyConstraint c limbs.leftHand HAND_REACH leftHandOffset MIN_COMPRESSION
  let c2 := applyConstraint c1 limbs.rightHand HAND_REACH rightHandOffset MIN_COMPRESSION
  let c3 := applyConstraint c2 limbs.leftFoot FOOT_REACH leftFootOffset MIN_COMPRESSION
  applyConstraint c3 limbs.rightFoot FOOT_REACH rightFootOffset MIN_COMPRESSION

/-- `constrainBodyPosition` (gameUtils.ts): 4 relaxation passes.  The
`holds` argument is accepted (as in the source signature) but never
read by the body. -/
noncomputable def constrainBodyPosition (proposedCOM : Point)
    (limbs : Limbs) (holds : List Hold) : Point :=
  constrainPass limbs (constrainPass limbs (constrainPass limbs
    (constrainPass limbs proposedCOM)))

/-- `solveIK` (gameUtils.ts).  The source's NaN guard
(`if (!p1 || !p2 || isNaN(p1.x) || isNaN(p2.x)) return {x:0,y:0}`) is
dead under exact real semantics (reals are never NaN) and omitted. -/
noncomputable def solveIK (p1 p2 : Point) (length1 length2 : ℝ)
    (bendRight : Bool) : Point :=
  let dist := calculateDistance p1 p2
  if length1 + length2 - 0.1 ≤ dist then
    let ratio := length1 / (length1 + length2)
    ⟨p1.x + (p2.x - p1.x) * ratio, p1.y + (p2.y - p1.y) * ratio⟩
  else
    let safeDist := max dist 1.0
    let cosAngle := max (-1)
      (min 1 ((safeDist * safeDist + length1 * length1 - length2 * length2) /
        (2 * safeDist * length1)))
    let angle := Real.arccos cosAngle
    let baseAngle := atan2 (p2.y - p1.y) (p2.x - p1.x)
    let totalAngle := if bendRight then baseAngle + angle else baseAngle - angle
    ⟨p1.x + Real.cos totalAngle * length1, p1.y + Real.sin totalAngle * length1⟩

/-! ## The simulation tick (App.tsx `loop`) -/

/-- Boundary data and mode flags read by one tick: the active route's
holds, `level.angle`, `level.height || 100` (the ground line), and the
three UI flags. -/
structure TickConfig where
  holds : List Hold
  wallAngle : ℝ
  groundY : ℝ
  realismMode : Bool
  infiniteStamina : Bool
  isUserDragging : Bool

/-- Mutable context of the loop besides the climber: the previous-frame
centre of mass (`prevCOMRef`), the drain-interval accumulator
(`staminaAccumulatorRef`) and the clamped elapsed time `safeDt`. -/
structure SimInput where
  state : ClimberState
  prevCOM : Point
  acc : ℝ
  safeDt : ℝ

/-- A tick's results: the new climber, the updated refs, and the
`setIsSlipping` call it made (`none` when the branch taken does not
touch the flag). -/
structure SimOutput where
  state : ClimberState
  prevCOM : Point
  acc : ℝ
  slipping : Option Bool

/-- `getStartLimbs`: hands `null`, feet smearing on the ground at
x = 46 / 54. -/
def startLimbs (groundY : ℝ) : Limbs :=
  ⟨none, none, some (.smearing 46 groundY), some (.smearing 54 groundY)⟩

/-- Initial / reset climber (`useState` initialiser, `resetClimber`,
`handleLevelChange`): standing at `(50, groundY - 14)`. -/
def initClimber (groundY : ℝ) : ClimberState :=
  { limbs := startLimbs groundY
    stamina := INITIAL_STAMINA
    armPump := ⟨0, 0⟩
    chalk := INITIAL_CHALK
    balance := 0
    status := .idle
    centerOfMass := ⟨50, groundY - 14⟩
    velocity := ⟨0, 0⟩ }

/-- Velocity recomputation at the top of the tick:
`(com - prevCOM) * (16 / safeDt)`. -/
noncomputable def withVelocity (prevCOM : Point) (safeDt : ℝ)
    (prev : ClimberState) : ClimberState :=
  { prev with velocity :=
      ⟨(prev.centerOfMass.x - prevCOM.x) * (16 / safeDt),
       (prev.centerOfMass.y - prevCOM.y) * (16 / safeDt)⟩ }

/-- Section 0 of the tick: falling physics. -/
noncomputable def fallingStep (groundY : ℝ) (s : ClimberState) : ClimberState :=
  let s1 := { s with limbs := nullLimbs }
  if s1.centerOfMass.y < groundY - 5 then
    let y1 := s1.centerOfMass.y + 1.5
    let x1 := s1.centerOfMass.x + s1.velocity.x * 0.95
    let x2 := if x1 < 0 then 0 else x1
    let x3 := if 100 < x2 then 100 else x2
    { s1 with centerOfMass := ⟨x3, y1⟩ }
  else
    { s1 with status := .idle
              centerOfMass := ⟨s1.centerOfMass.x, groundY - 14⟩
              limbs := startLimbs groundY
              stamina := 50 }

/-- The grounded branch of the tick (standing on the ground, not user
dragged): recover, zero pump/balance, force `idle`, settle height,
synthesise missing foot contacts.  (`if (status !== 'idle') status =
'idle'` always leaves `idle`.) -/
noncomputable def groundedStep (groundY : ℝ) (s : ClimberState) : ClimberState :=
  let s1 := { s with balance := 0
                     stamina := min 100 (s.stamina + 0.5)
                     armPump := (⟨0, 0⟩ : ArmPump)
                     status := Status.idle }
  let y1 := if s1.velocity.x = 0 ∧ s1.velocity.y = 0 then
      s1.centerOfMass.y * 0.9 + (groundY - 14) * 0.1
    else s1.centerOfMass.y
  let y2 := if groundY - 12 < y1 then groundY - 12 else y1
  let limbs1 : Limbs :=
    { s1.limbs with
      leftFoot := match s1.limbs.leftFoot with
        | none => some (.smearing (s1.centerOfMass.x - 4) groundY)
        | some v => some v
      rightFoot := match s1.limbs.rightFoot with
        | none => some (.smearing (s1.centerOfMass.x + 4) groundY)
        | some v => some v }
  { s1 with centerOfMass := ⟨s1.centerOfMass.x, y2⟩, limbs := limbs1 }

/-- `checkAndDetach` closure of the tick: null a limb whose anchor (from
the proposed centre of mass) is beyond 105% of max reach. -/
noncomputable def checkAndDetach (proposedCOM : Point) (anchorOffset : Point)
    (maxR : ℝ) (slot : Option LimbVal) : Option LimbVal :=
  match slot with
  | none => none
  | some v =>
    let anchor : Point := ⟨proposedCOM.x + anchorOffset.x, proposedCOM.y + anchorOffset.y⟩
    if maxR * 1.05 < calculateDistance anchor ⟨v.px, v.py⟩ then none else some v

/-- Section 1 of the tick: momentum + gravity + muscle activation,
auto-detach, then the body constraint solver.  Runs only when the user
is not dragging. -/
noncomputable def physicsStep (holds : List Hold) (wallAngle : ℝ)
    (s : ClimberState) : ClimberState :=
  let gravity0 : ℝ := 0.2
  let damping0 : ℝ := 0.92
  let activeFootLimbs := [s.limbs.leftFoot, s.limbs.rightFoot].filterMap id
  let gravity1 :=
    if !activeFootLimbs.isEmpty then
      let avgFootY := (activeFootLimbs.map LimbVal.py).sum / (activeFootLimbs.length : ℝ)
      if s.centerOfMass.y < avgFootY + 5 then
        let g := 0.2 * Real.sin (wallAngle * (Real.pi / 180))
        if wallAngle < 0 then 0.05 else g
      else gravity0
    else gravity0
  let handCount := ([s.limbs.leftHand, s.limbs.rightHand].filter isAttachedO).length
  let gd :=
    if 0 < handCount ∧ 5 < s.stamina then
      let velocityMag :=
        Real.sqrt (s.velocity.x * s.velocity.x + s.velocity.y * s.velocity.y)
      if velocityMag < 1.0 then
        let muscleStrength := min 1.0 (s.stamina / 20)
        (gravity1 * (1 - 0.9 * muscleStrength), 0.92 * (1 - 0.15 * muscleStrength))
      else (gravity1, damping0)
    else (gravity1, damping0)
  let proposedCOM : Point :=
    ⟨s.centerOfMass.x + s.velocity.x * gd.2,
     s.centerOfMass.y + s.velocity.y * gd.2 + gd.1⟩
  let nextLimbs : Limbs :=
    ⟨checkAndDetach proposedCOM leftHandOffset MAX_REACH.hand s.limbs.leftHand,
     checkAndDetach proposedCOM rightHandOffset MAX_REACH.hand s.limbs.rightHand,
     checkAndDetach proposedCOM leftFootOffset MAX_REACH.foot s.limbs.leftFoot,
     checkAndDetach proposedCOM rightFootOffset MAX_REACH.foot s.limbs.rightFoot⟩
  { s with limbs := nextLimbs
           centerOfMass := constrainBodyPosition proposedCOM nextLimbs holds }

/-- The balance fall trigger inside the drain interval:
`if (balanceScore >= 100 && !infiniteStamina)`. -/
noncomputable def fallImbalance (infiniteStamina : Bool) (balanceScore : ℝ)
    (s : ClimberState) : ClimberState :=
  if 100 ≤ balanceScore ∧ !infiniteStamina then
    { s with balance := 100, status := .falling, limbs := nullLimbs }
  else s

/-- Drain application inside the drain interval (skipped entirely under
infinite stamina): stamina/pump/chalk updates, pump-out hand release,
stamina-exhaustion fall. -/
noncomputable def applyDrains (infiniteStamina : Bool) (drains : DrainResult)
    (s : ClimberState) : ClimberState :=
  if infiniteStamina then s
  else
    let stamina1 := max 0 (s.stamina - drains.core)
    let pl := max 0 (min 100 (s.armPump.left + drains.leftPump))
    let pr := max 0 (min 100 (s.armPump.right + drains.rightPump))
    let chalk1 := max 0 (s.chalk - 0.02)
    let limbs1 := if 100 ≤ pl then { s.limbs with leftHand := none } else s.limbs
    let limbs2 := if 100 ≤ pr then { limbs1 with rightHand := none } else limbs1
    if stamina1 ≤ 0 then
      { s with stamina := stamina1, armPump := ⟨pl, pr⟩, chalk := chalk1
               status := .falling, limbs := nullLimbs }
    else
      { s with stamina := stamina1, armPump := ⟨pl, pr⟩, chalk := chalk1
               limbs := limbs2 }

/-- Section 2 of the tick (game logic while `climbing` and not user
dragged): accumulate the drain interval and, when it fires, recompute
balance and friction, set the slipping flag, apply fall triggers and
drains.  Returns (state, accumulator, slipping flag set). -/
noncomputable def gameLogicStep (holds : List Hold) (wallAngle : ℝ)
    (realismMode infiniteStamina : Bool) (s : ClimberState)
    (acc safeDt : ℝ) : ClimberState × ℝ × Option Bool :=
  let acc1 := acc + safeDt
  if 100 < acc1 then
    let balanceScore := calculateStability s holds wallAngle realismMode
    let s1 := { s with balance := balanceScore }
    let frictionPenalty := getFrictionPenalty s1 holds wallAngle realismMode
    let slipThreshold : ℝ := if realismMode then 15 else 20
    let slip := some (decide (slipThreshold < frictionPenalty))
    let s2 := fallImbalance infiniteStamina balanceScore s1
    let drains := calculateTickDrain s2 holds HOLD_STAMINA_DRAIN wallAngle realismMode
    (applyDrains infiniteStamina drains s2, 0, slip)
  else (s, acc1, none)

/-- Section 3 of the tick: unsupported free-fall detection. -/
noncomputable def checkFallStep (groundY : ℝ) (isUserDragging : Bool)
    (s : ClimberState) : ClimberState :=
  let handCount := ([s.limbs.leftHand, s.limbs.rightHand].filter isAttachedO).length
  if !isUserDragging ∧ handCount = 0 ∧ s.centerOfMass.y < groundY - 18 then
    let s1 := { s with centerOfMass := ⟨s.centerOfMass.x, s.centerOfMass.y + 1.0⟩ }
    if s1.status = .climbing then { s1 with status := .falling, limbs := nullLimbs }
    else s1
  else s

/-- One invocation of the `loop` body (App.tsx), for `safeDt =
min(dt, 50)`; a non-positive `safeDt` skips the whole update. -/
noncomputable def tick (cfg : TickConfig) (inp : SimInput) : SimOutput :=
  if inp.safeDt ≤ 0 then ⟨inp.state, inp.prevCOM, inp.acc, none⟩
  else
    let s0 := withVelocity inp.prevCOM inp.safeDt inp.state
    let newPrev := inp.state.centerOfMass
    if s0.status = .falling then
      ⟨fallingStep cfg.groundY s0, newPrev, inp.acc, none⟩
    else
      let isGrounded := cfg.groundY - 16 ≤ s0.centerOfMass.y
      if isGrounded ∧ !cfg.isUserDragging then
        ⟨groundedStep cfg.groundY s0, newPrev, inp.acc, some false⟩
      else
        let s1 := if !cfg.isUserDragging then physicsStep cfg.holds cfg.wallAngle s0 else s0
        let gl :=
          if s1.status = .climbing ∧ !cfg.isUserDragging then
            gameLogicStep cfg.holds cfg.wallAngle cfg.realismMode
              cfg.infiniteStamina s1 inp.acc inp.safeDt
          else ({ s1 with balance := 0 }, inp.acc, some false)
        ⟨checkFallStep cfg.groundY cfg.isUserDragging gl.1, newPrev, gl.2.1, gl.2.2⟩

/-! ## External events (App.tsx handlers) -/

/-- Limb identifiers (`Limb` in types.ts). -/
inductive LimbId where
  | leftHand | rightHand | leftFoot | rightFoot
deriving DecidableEq

/-- `{ ...prev.limbs, [limb]: val }`. -/
def Limbs.set (L : Limbs) : LimbId → Option LimbVal → Limbs
  | .leftHand, v => { L with leftHand := v }
  | .rightHand, v => { L with rightHand := v }
  | .leftFoot, v => { L with leftFoot := v }
  | .rightFoot, v => { L with rightFoot := v }

def Limbs.get (L : Limbs) : LimbId → Option LimbVal
  | .leftHand => L.leftHand
  | .rightHand => L.rightHand
  | .leftFoot => L.leftFoot
  | .rightFoot => L.rightFoot

/-- `handlePlaceLimb` (App.tsx): place/clear a limb, promote to
`topped` when both hands hold `finish` holds, promote `idle` to
`climbing` on any non-null placement.  (The source's
`isAttached(val) || val !== null` is equivalent to `val !== null`.) -/
def handlePlaceLimb (holds : List Hold) (val : Option LimbVal)
    (limb : LimbId) (s : ClimberState) : ClimberState :=
  let nextLimbs := s.limbs.set limb val
  let status1 :=
    match nextLimbs.leftHand, nextLimbs.rightHand with
    | some (.attached _ _ lid), some (.attached _ _ rid) =>
      if (findHold holds lid).map Hold.type = some .finish ∧
         (findHold holds rid).map Hold.type = some .finish then
        Status.topped
      else s.status
    | _, _ => s.status
  let status2 := if status1 = .idle ∧ val.isSome then Status.climbing else status1
  { s with limbs := nextLimbs, status := status2 }

/-- The `'c'` chalk-up key handler (active while climbing): +5 chalk,
-1 stamina, no-op at full chalk. -/
noncomputable def chalkKeyStep (s : ClimberState) : ClimberState :=
  if s.status = .climbing then
    if 100 ≤ s.chalk then s
    else { s with chalk := min 100 (s.chalk + 5), stamina := max 0 (s.stamina - 1) }
  else s

/-! ## Reachable states -/

/-- The clamping invariant of the data model: the five gauge fields sit
in `[0, 100]`. -/
def InRange (s : ClimberState) : Prop :=
  0 ≤ s.stamina ∧ s.stamina ≤ 100 ∧
  0 ≤ s.chalk ∧ s.chalk ≤ 100 ∧
  0 ≤ s.armPump.left ∧ s.armPump.left ≤ 100 ∧
  0 ≤ s.armPump.right ∧ s.armPump.right ≤ 100 ∧
  0 ≤ s.balance ∧ s.balance ≤ 100

/-- Climber states reachable from (re)initialisation through ticks and
the external events (limb placement, chalk key, user drag of the centre
of mass). -/
inductive Reachable : ClimberState → Prop where
  | init (groundY : ℝ) : Reachable (initClimber groundY)
  | tickStep (cfg : TickConfig) (prevCOM : Point) (acc safeDt : ℝ)
      {s : ClimberState} :
      Reachable s → Reachable (tick cfg ⟨s, prevCOM, acc, safeDt⟩).state
  | placeLimb (holds : List Hold) (val : Option LimbVal) (limb : LimbId)
      {s : ClimberState} :
      Reachable s → Reachable (handlePlaceLimb holds val limb s)
  | chalkUp {s : ClimberState} : Reachable s → Reachable (chalkKeyStep s)
  | setCOM (p : Point) {s : ClimberState} :
      Reachable s → Reachable { s with centerOfMass := p }

/-! ## Helper lemmas -/

/-- `getAngleDiff` never exceeds 180. -/
theorem getAngleDiff_le_180 (a b : ℝ) : getAngleDiff a b ≤ 180 := by
  unfold getAngleDiff
  dsimp only
  split_ifs with h
  · linarith
  · linarith [not_lt.mp h]

theorem atan2_zero : atan2 0 0 = 0 := by
  unfold atan2
  have h : (⟨0, 0⟩ : ℂ) = 0 := by
    apply Complex.ext <;> simp
  rw [h, Complex.arg_zero]

/-- `getAngle` lands in `[0, 360)`. -/
theorem getAngle_bounds (p1 p2 : Point) :
    0 ≤ getAngle p1 p2 ∧ getAngle p1 p2 < 360 := by
  unfold getAngle atan2
  have h1 : Complex.arg ⟨p2.x - p1.x, p2.y - p1.y⟩ ≤ Real.pi := Complex.arg_le_pi _
  have h2 : -Real.pi < Complex.arg ⟨p2.x - p1.x, p2.y - p1.y⟩ := Complex.neg_pi_lt_arg _
  have hpi : (0 : ℝ) < Real.pi := Real.pi_pos
  have hratio : (0 : ℝ) < 180 / Real.pi := by positivity
  have hT1 : Complex.arg ⟨p2.x - p1.x, p2.y - p1.y⟩ * (180 / Real.pi) ≤ 180 := by
    calc Complex.arg ⟨p2.x - p1.x, p2.y - p1.y⟩ * (180 / Real.pi)
        ≤ Real.pi * (180 / Real.pi) := mul_le_mul_of_nonneg_right h1 (le_of_lt hratio)
      _ = 180 := by rw [mul_comm]; exact div_mul_cancel₀ 180 hpi.ne'
  have hT2 : -180 < Complex.arg ⟨p2.x - p1.x, p2.y - p1.y⟩ * (180 / Real.pi) := by
    have hlt := mul_lt_mul_of_pos_right h2 hratio
    calc (-180 : ℝ) = -Real.pi * (180 / Real.pi) := by
          rw [neg_mul, mul_comm, div_mul_cancel₀ 180 hpi.ne']
      _ < Complex.arg ⟨p2.x - p1.x, p2.y - p1.y⟩ * (180 / Real.pi) := hlt
  dsimp only
  constructor <;> split_ifs with h <;> linarith

/-- Evaluate a `Math.sqrt(dx*dx + dy*dy)` to a known nonnegative value. -/
theorem sqrt_mul_self_eval {a b d : ℝ} (hd : 0 ≤ d) (h : a * a + b * b = d ^ 2) :
    Real.sqrt (a * a + b * b) = d := by rw [h, Real.sqrt_sq hd]

/-- Evaluate `calculateDistance` to a known nonnegative value. -/
theorem calculateDistance_eval {p1 p2 : Point} {d : ℝ} (hd : 0 ≤ d)
    (h : (p2.x - p1.x) ^ 2 + (p2.y - p1.y) ^ 2 = d ^ 2) :
    calculateDistance p1 p2 = d := by
  unfold calculateDistance; rw [h, Real.sqrt_sq hd]

@[simp] theorem applyConstraint_none (c : Point) (m : ℝ) (o : Point) (mi : ℝ) :
    applyConstraint c none m o mi = c := rfl

/-- `applyConstraint` evaluation, far branch (`dist > maxLen`). -/
theorem applyConstraint_eval_far {c : Point} {v : LimbVal} {maxLen minLen : ℝ}
    {off : Point} {d : ℝ}
    (hd : Real.sqrt ((v.px - (c.x + off.x)) * (v.px - (c.x + off.x)) +
      (v.py - (c.y + off.y)) * (v.py - (c.y + off.y))) = d)
    (h1 : maxLen < d) :
    applyConstraint c (some v) maxLen off minLen =
      ⟨v.px - (v.px - (c.x + off.x)) * (maxLen / d) - off.x,
       v.py - (v.py - (c.y + off.y)) * (maxLen / d) - off.y⟩ := by
  simp only [applyConstraint]
  rw [hd, if_pos h1]

/-- `applyConstraint` evaluation, no-op branch. -/
theorem applyConstraint_eval_ok {c : Point} {v : LimbVal} {maxLen minLen : ℝ}
    {off : Point} {d : ℝ}
    (hd : Real.sqrt ((v.px - (c.x + off.x)) * (v.px - (c.x + off.x)) +
      (v.py - (c.y + off.y)) * (v.py - (c.y + off.y))) = d)
    (h1 : ¬ maxLen < d) (h2 : ¬ (d < minLen ∧ 0.1 < d)) :
    applyConstraint c (some v) maxLen off minLen = c := by
  simp only [applyConstraint]
  rw [hd, if_neg h1, if_neg h2]

/-- The limb anchor derived from a centre of mass and a fixed offset. -/
def anchorPoint (c off : Point) : Point := ⟨c.x + off.x, c.y + off.y⟩

/-- The position carried by a limb value, as a `Point`. -/
def limbPoint (v : LimbVal) : Point := ⟨v.px, v.py⟩

/-! ## C10 — `constrainBodyPosition` ignores its `holds` argument -/

/-- C10: the result of `constrainBodyPosition` does not depend on the
hold list: the body of the function never reads `holds`, so the results
for any two hold lists are definitionally equal. -/
theorem constrainBody_ignores_holds (com : Point) (limbs : Limbs)
    (h1 h2 : List Hold) :
    constrainBodyPosition com limbs h1 = constrainBodyPosition com limbs h2 := rfl

/-! ## C6 — `solveIK` beyond full extension -/

/-- C6 (amended): when root and target are at least `len1 + len2 - 0.1`
apart, `solveIK` returns the point at fraction `len1 / (len1 + len2)`
of the way from root to target — NOT the point at distance `len1` from
the root (those coincide only when `dist = len1 + len2`). -/
theorem solveIK_far_proportional (p1 p2 : Point) (l1 l2 : ℝ) (b : Bool)
    (h : l1 + l2 - 0.1 ≤ calculateDistance p1 p2) :
    solveIK p1 p2 l1 l2 b =
      ⟨p1.x + (p2.x - p1.x) * (l1 / (l1 + l2)),
       p1.y + (p2.y - p1.y) * (l1 / (l1 + l2))⟩ := by
  simp only [solveIK]
  rw [if_pos h]

theorem solveIK_far_proportional_witness :
    (5 : ℝ) + 5 - 0.1 ≤ calculateDistance ⟨0, 0⟩ ⟨20, 0⟩ ∧
    solveIK ⟨0, 0⟩ ⟨20, 0⟩ 5 5 true = (⟨10, 0⟩ : Point) := by
  have hd : calculateDistance (⟨0, 0⟩ : Point) ⟨20, 0⟩ = 20 :=
    calculateDistance_eval (by norm_num) (by norm_num)
  have hle : (5 : ℝ) + 5 - 0.1 ≤ calculateDistance ⟨0, 0⟩ ⟨20, 0⟩ := by
    rw [hd]; norm_num
  refine ⟨hle, (solveIK_far_proportional ⟨0, 0⟩ ⟨20, 0⟩ 5 5 true hle).trans ?_⟩
  norm_num [Point.mk.injEq]

/-- C6 counterexample: at root `(0,0)`, target `(20,0)`, lengths 5 and
5 (target beyond `len1+len2 = 10`), the code returns `(10, 0)` — the
midpoint — not the point `(5, 0)` at distance `len1` along the ray
claimed by the spec. -/
theorem solveIK_far_not_len1 :
    solveIK ⟨0, 0⟩ ⟨20, 0⟩ 5 5 true ≠ (⟨5, 0⟩ : Point) := by
  have hd : calculateDistance (⟨0, 0⟩ : Point) ⟨20, 0⟩ = 20 :=
    calculateDistance_eval (by norm_num) (by norm_num)
  have heval : solveIK ⟨0, 0⟩ ⟨20, 0⟩ 5 5 true = (⟨10, 0⟩ : Point) := by
    simp only [solveIK]
    rw [hd, if_pos (by norm_num)]
    norm_num [Point.mk.injEq]
  rw [heval]
  norm_num [Point.mk.injEq]

/-! ## C8 — `solveIK` with coincident root and target -/

/-- C8: for `p1 = p2` (any finite point) with lengths 5 and 5, the
law-of-cosines divisor is floored: `max dist 1 = 1`, so the division is
by `2 * 1 * 5 = 10`, and the solver returns the explicit finite point
`(p.x + 1/2, p.y + 5·√(99/100))` — no division by zero occurs and the
result is a closed finite expression (reals carry no NaN). -/
theorem solveIK_degenerate_total (p : Point) :
    max (calculateDistance p p) 1.0 = 1 ∧
    solveIK p p 5 5 true =
      (⟨p.x + 1 / 2, p.y + Real.sqrt (99 / 100) * 5⟩ : Point) := by
  have hd : calculateDistance p p = 0 :=
    calculateDistance_eval le_rfl (by ring)
  have hmax : max (calculateDistance p p) 1.0 = 1 := by
    rw [hd]; norm_num
  refine ⟨hmax, ?_⟩
  simp only [solveIK]
  rw [hd, if_neg (by norm_num)]
  have hsafe : max (0 : ℝ) 1.0 = 1 := by norm_num
  rw [hsafe]
  have hcos : max (-1 : ℝ) (min 1 ((1 * 1 + 5 * 5 - 5 * 5) / (2 * 1 * 5))) = 1 / 10 := by
    norm_num
  rw [hcos]
  have hbase : atan2 (p.y - p.y) (p.x - p.x) = 0 := by
    rw [sub_self, sub_self, atan2_zero]
  rw [hbase]
  norm_num [Point.mk.injEq, Real.cos_arccos, Real.sin_arccos]

/-! ## C1 — reach after `constrainBodyPosition` -/

/-- `applyConstraint` min-compression branch evaluation. -/
theorem applyConstraint_eval_min {c : Point} {v : LimbVal} {maxLen minLen : ℝ}
    {off : Point} {d : ℝ}
    (hd : Real.sqrt ((v.px - (c.x + off.x)) * (v.px - (c.x + off.x)) +
      (v.py - (c.y + off.y)) * (v.py - (c.y + off.y))) = d)
    (h1 : ¬ maxLen < d) (h2 : d < minLen ∧ 0.1 < d) :
    applyConstraint c (some v) maxLen off minLen =
      ⟨v.px - (v.px - (c.x + off.x)) * (minLen / d) - off.x,
       v.py - (v.py - (c.y + off.y)) * (minLen / d) - off.y⟩ := by
  simp only [applyConstraint]
  rw [hd, if_neg h1, if_pos h2]

/-- Anchor-to-limb distance after rescaling the anchor towards/away
from the limb by factor `s`. -/
theorem dist_after_scale (px py ax ay : ℝ) (off : Point) (s : ℝ) (hs : 0 ≤ s) :
    calculateDistance
      (anchorPoint ⟨px - (px - ax) * s - off.x, py - (py - ay) * s - off.y⟩ off)
      ⟨px, py⟩
      = s * Real.sqrt ((px - ax) * (px - ax) + (py - ay) * (py - ay)) := by
  unfold calculateDistance anchorPoint
  dsimp only
  rw [show (px - (px - (px - ax) * s - off.x + off.x)) ^ 2 +
      (py - (py - (py - ay) * s - off.y + off.y)) ^ 2
      = s ^ 2 * ((px - ax) * (px - ax) + (py - ay) * (py - ay)) from by ring]
  rw [Real.sqrt_mul (sq_nonneg s), Real.sqrt_sq hs]

/-- After a single `applyConstraint` on a non-null limb, the
anchor-to-limb distance never exceeds `maxLen`: the far branch lands
exactly on `maxLen`, the compression branch on `minLen ≤ maxLen`, and
the no-op branch was already within `maxLen`. -/
theorem applyConstraint_dist_le (c : Point) (v : LimbVal) (maxLen minLen : ℝ)
    (off : Point) (hmax : 0 < maxLen) (hmin0 : 0 ≤ minLen) (hmm : minLen ≤ maxLen) :
    calculateDistance (anchorPoint (applyConstraint c (some v) maxLen off minLen) off)
      (limbPoint v) ≤ maxLen := by
  set d := Real.sqrt ((v.px - (c.x + off.x)) * (v.px - (c.x + off.x)) +
      (v.py - (c.y + off.y)) * (v.py - (c.y + off.y))) with hd
  have h0 : 0 ≤ d := Real.sqrt_nonneg _
  by_cases h1 : maxLen < d
  · have hdpos : (0 : ℝ) < d := hmax.trans h1
    rw [applyConstraint_eval_far hd.symm h1]
    unfold limbPoint
    rw [dist_after_scale v.px v.py (c.x + off.x) (c.y + off.y) off
      (maxLen / d) (by positivity), ← hd, div_mul_cancel₀ maxLen hdpos.ne']
  · by_cases h2 : d < minLen ∧ (0.1 : ℝ) < d
    · have hdpos : (0 : ℝ) < d := lt_trans (by norm_num) h2.2
      rw [applyConstraint_eval_min hd.symm h1 h2]
      unfold limbPoint
      rw [dist_after_scale v.px v.py (c.x + off.x) (c.y + off.y) off
        (minLen / d) (by positivity), ← hd, div_mul_cancel₀ minLen hdpos.ne']
      exact hmm
    · rw [applyConstraint_eval_ok hd.symm h1 h2]
      have heq : calculateDistance (anchorPoint c off) (limbPoint v) = d := by
        rw [hd]
        unfold calculateDistance anchorPoint limbPoint
        dsimp only
        congr 1
        ring
      rw [heq]
      exact not_lt.mp h1

/-- One `constrainPass` written as the explicit four-constraint chain. -/
theorem constrainPass_eq (L : Limbs) (c : Point) :
    constrainPass L c =
      applyConstraint
        (applyConstraint
          (applyConstraint
            (applyConstraint c L.leftHand (MAX_REACH.hand * 0.99) leftHandOffset 3.0)
            L.rightHand (MAX_REACH.hand * 0.99) rightHandOffset 3.0)
          L.leftFoot (MAX_REACH.foot * 0.99) leftFootOffset 3.0)
        L.rightFoot (MAX_REACH.foot * 0.99) rightFootOffset 3.0 := rfl

/-- C1 (amended): after `constrainBodyPosition`, the reach bound
`distance(anchor, limb) ≤ maxReach × 1.001` is guaranteed for the limb
whose constraint runs LAST in the final relaxation pass (rightFoot if
non-null, else leftFoot, else rightHand, else leftHand) — a later
constraint can push the body back out of reach of an earlier limb, so
the bound does not hold for all limbs (see the counterexample). -/
theorem constrainBody_reach_last_processed (com : Point) (L : Limbs)
    (holds : List Hold) :
    (∀ v, L.rightFoot = some v →
      calculateDistance (anchorPoint (constrainBodyPosition com L holds) rightFootOffset)
        (limbPoint v) ≤ MAX_REACH.foot * 1.001) ∧
    (L.rightFoot = none → ∀ v, L.leftFoot = some v →
      calculateDistance (anchorPoint (constrainBodyPosition com L holds) leftFootOffset)
        (limbPoint v) ≤ MAX_REACH.foot * 1.001) ∧
    (L.rightFoot = none → L.leftFoot = none → ∀ v, L.rightHand = some v →
      calculateDistance (anchorPoint (constrainBodyPosition com L holds) rightHandOffset)
        (limbPoint v) ≤ MAX_REACH.hand * 1.001) ∧
    (L.rightFoot = none → L.leftFoot = none → L.rightHand = none →
      ∀ v, L.leftHand = some v →
      calculateDistance (anchorPoint (constrainBodyPosition com L holds) leftHandOffset)
        (limbPoint v) ≤ MAX_REACH.hand * 1.001) := by
  have hfoot : (0 : ℝ) < MAX_REACH.foot * 0.99 := by
    norm_num [MAX_REACH.foot, ANATOMY.legUpper, ANATOMY.legLower]
  have hhand : (0 : ℝ) < MAX_REACH.hand * 0.99 := by
    norm_num [MAX_REACH.hand, ANATOMY.armUpper, ANATOMY.armLower]
  have hfoot3 : (3.0 : ℝ) ≤ MAX_REACH.foot * 0.99 := by
    norm_num [MAX_REACH.foot, ANATOMY.legUpper, ANATOMY.legLower]
  have hhand3 : (3.0 : ℝ) ≤ MAX_REACH.hand * 0.99 := by
    norm_num [MAX_REACH.hand, ANATOMY.armUpper, ANATOMY.armLower]
  have hfootle : MAX_REACH.foot * 0.99 ≤ MAX_REACH.foot * 1.001 := by
    norm_num [MAX_REACH.foot, ANATOMY.legUpper, ANATOMY.legLower]
  have hhandle : MAX_REACH.hand * 0.99 ≤ MAX_REACH.hand * 1.001 := by
    norm_num [MAX_REACH.hand, ANATOMY.armUpper, ANATOMY.armLower]
  have hbody : constrainBodyPosition com L holds =
      constrainPass L (constrainPass L (constrainPass L (constrainPass L com))) := rfl
  refine ⟨?_, ?_, ?_, ?_⟩
  · intro v hv
    rw [hbody, constrainPass_eq, hv]
    exact (applyConstraint_dist_le _ v _ 3.0 _ hfoot (by norm_num) hfoot3).trans hfootle
  · intro hrf v hv
    rw [hbody, constrainPass_eq, hrf, applyConstraint_none, hv]
    exact (applyConstraint_dist_le _ v _ 3.0 _ hfoot (by norm_num) hfoot3).trans hfootle
  · intro hrf hlf v hv
    rw [hbody, constrainPass_eq, hrf, applyConstraint_none, hlf, applyConstraint_none, hv]
    exact (applyConstraint_dist_le _ v _ 3.0 _ hhand (by norm_num) hhand3).trans hhandle
  · intro hrf hlf hrh v hv
    rw [hbody, constrainPass_eq, hrf, applyConstraint_none, hlf, applyConstraint_none,
      hrh, applyConstraint_none, hv]
    exact (applyConstraint_dist_le _ v _ 3.0 _ hhand (by norm_num) hhand3).trans hhandle

/-- Limb configuration for the C1 counterexample: a hand pinned far
above and a foot far below, pulling the 4-pass solver into a cycle. -/
def reachCexLimbs : Limbs :=
  ⟨some (.attached (-3.25) 0 "h1"), none, some (.smearing (-1.75) 100), none⟩

theorem reachCexAC1 (hid : String) :
    applyConstraint ⟨0, 50⟩ (some (.attached (-3.25) 0 hid))
    (MAX_REACH.hand * 0.99) leftHandOffset 3.0 = ⟨0, 22.22⟩ := by
  have hd : Real.sqrt
      (((LimbVal.attached (-3.25) 0 hid).px - ((⟨0, 50⟩ : Point).x + leftHandOffset.x)) *
        ((LimbVal.attached (-3.25) 0 hid).px - ((⟨0, 50⟩ : Point).x + leftHandOffset.x)) +
       ((LimbVal.attached (-3.25) 0 hid).py - ((⟨0, 50⟩ : Point).y + leftHandOffset.y)) *
        ((LimbVal.attached (-3.25) 0 hid).py - ((⟨0, 50⟩ : Point).y + leftHandOffset.y)))
      = 40.65 := by
    apply sqrt_mul_self_eval (by norm_num)
    simp only [LimbVal.px, LimbVal.py, leftHandOffset, ANATOMY.shoulderWidth,
      ANATOMY.torsoHeight]
    norm_num
  rw [applyConstraint_eval_far hd
    (by norm_num [MAX_REACH.hand, ANATOMY.armUpper, ANATOMY.armLower])]
  simp only [LimbVal.px, LimbVal.py, leftHandOffset, ANATOMY.shoulderWidth,
    ANATOMY.torsoHeight, MAX_REACH.hand, ANATOMY.armUpper, ANATOMY.armLower]
  norm_num [Point.mk.injEq]

theorem reachCexAC2 : applyConstraint ⟨0, 22.22⟩ (some (.smearing (-1.75) 100))
    (MAX_REACH.foot * 0.99) leftFootOffset 3.0 = ⟨0, 82.66⟩ := by
  have hd : Real.sqrt
      (((LimbVal.smearing (-1.75) 100).px - ((⟨0, 22.22⟩ : Point).x + leftFootOffset.x)) *
        ((LimbVal.smearing (-1.75) 100).px - ((⟨0, 22.22⟩ : Point).x + leftFootOffset.x)) +
       ((LimbVal.smearing (-1.75) 100).py - ((⟨0, 22.22⟩ : Point).y + leftFootOffset.y)) *
        ((LimbVal.smearing (-1.75) 100).py - ((⟨0, 22.22⟩ : Point).y + leftFootOffset.y)))
      = 76.28 := by
    apply sqrt_mul_self_eval (by norm_num)
    simp only [LimbVal.px, LimbVal.py, leftFootOffset, ANATOMY.hipWidth]
    norm_num
  rw [applyConstraint_eval_far hd
    (by norm_num [MAX_REACH.foot, ANATOMY.legUpper, ANATOMY.legLower])]
  simp only [LimbVal.px, LimbVal.py, leftFootOffset, ANATOMY.hipWidth,
    MAX_REACH.foot, ANATOMY.legUpper, ANATOMY.legLower]
  norm_num [Point.mk.injEq]

theorem reachCexAC3 (hid : String) :
    applyConstraint ⟨0, 82.66⟩ (some (.attached (-3.25) 0 hid))
    (MAX_REACH.hand * 0.99) leftHandOffset 3.0 = ⟨0, 22.22⟩ := by
  have hd : Real.sqrt
      (((LimbVal.attached (-3.25) 0 hid).px - ((⟨0, 82.66⟩ : Point).x + leftHandOffset.x)) *
        ((LimbVal.attached (-3.25) 0 hid).px - ((⟨0, 82.66⟩ : Point).x + leftHandOffset.x)) +
       ((LimbVal.attached (-3.25) 0 hid).py - ((⟨0, 82.66⟩ : Point).y + leftHandOffset.y)) *
        ((LimbVal.attached (-3.25) 0 hid).py - ((⟨0, 82.66⟩ : Point).y + leftHandOffset.y)))
      = 73.31 := by
    apply sqrt_mul_self_eval (by norm_num)
    simp only [LimbVal.px, LimbVal.py, leftHandOffset, ANATOMY.shoulderWidth,
      ANATOMY.torsoHeight]
    norm_num
  rw [applyConstraint_eval_far hd
    (by norm_num [MAX_REACH.hand, ANATOMY.armUpper, ANATOMY.armLower])]
  simp only [LimbVal.px, LimbVal.py, leftHandOffset, ANATOMY.shoulderWidth,
    ANATOMY.torsoHeight, MAX_REACH.hand, ANATOMY.armUpper, ANATOMY.armLower]
  norm_num [Point.mk.injEq]

theorem reachCexPassA : constrainPass reachCexLimbs ⟨0, 50⟩ = ⟨0, 82.66⟩ := by
  rw [constrainPass_eq]
  dsimp only [reachCexLimbs]
  rw [reachCexAC1 "h1"]
  simp only [applyConstraint_none]
  rw [reachCexAC2]

theorem reachCexPassB : constrainPass reachCexLimbs ⟨0, 82.66⟩ = ⟨0, 82.66⟩ := by
  rw [constrainPass_eq]
  dsimp only [reachCexLimbs]
  rw [reachCexAC3 "h1"]
  simp only [applyConstraint_none]
  rw [reachCexAC2]

/-- C1 counterexample: with the left hand attached at `(-3.25, 0)` and
the left foot smearing at `(-1.75, 100)`, `constrainBodyPosition`
starting from `(0, 50)` returns `(0, 82.66)` (the foot constraint runs
last), leaving the left hand `73.31 > 13 × 1.001` away from its
anchor: the claimed reach invariant fails for the attached hand. -/
theorem constrainBody_reach_claim_false :
    reachCexLimbs.leftHand = some (.attached (-3.25) 0 "h1") ∧
    MAX_REACH.hand * 1.001 <
      calculateDistance
        (anchorPoint (constrainBodyPosition ⟨0, 50⟩ reachCexLimbs []) leftHandOffset)
        (limbPoint (.attached (-3.25) 0 "h1")) := by
  refine ⟨rfl, ?_⟩
  have hc : constrainBodyPosition ⟨0, 50⟩ reachCexLimbs [] = ⟨0, 82.66⟩ := by
    show constrainPass reachCexLimbs (constrainPass reachCexLimbs
      (constrainPass reachCexLimbs (constrainPass reachCexLimbs ⟨0, 50⟩))) = _
    rw [reachCexPassA, reachCexPassB, reachCexPassB, reachCexPassB]
  rw [hc]
  have hdist : calculateDistance (anchorPoint ⟨0, 82.66⟩ leftHandOffset)
      (limbPoint (.attached (-3.25) 0 "h1")) = 73.31 := by
    apply calculateDistance_eval (by norm_num)
    simp only [anchorPoint, limbPoint, LimbVal.px, LimbVal.py, leftHandOffset,
      ANATOMY.shoulderWidth, ANATOMY.torsoHeight]
    norm_num
  rw [hdist]
  norm_num [MAX_REACH.hand, ANATOMY.armUpper, ANATOMY.armLower]

/-- Single-limb configuration witnessing the amended C1 theorem. -/
def reachWitLimbs : Limbs := ⟨none, none, none, some (.smearing 51.75 60)⟩

theorem constrainBody_reach_last_processed_witness :
    reachWitLimbs.rightFoot = some (.smearing 51.75 60) ∧
    calculateDistance
      (anchorPoint (constrainBodyPosition ⟨50, 50⟩ reachWitLimbs []) rightFootOffset)
      (limbPoint (.smearing 51.75 60)) ≤ MAX_REACH.foot * 1.001 :=
  ⟨rfl, (constrainBody_reach_last_processed ⟨50, 50⟩ reachWitLimbs []).1
    (.smearing 51.75 60) rfl⟩

/-! ## C7 — dangling hold attachments -/

/-- A non-attached (smearing) hand contributes no directionality
penalty. -/
theorem handPenalty_smearing (com : Point) (holds : List Hold) (rm : Bool)
    (x y : ℝ) : handPenalty com holds rm (.smearing x y) = 0 := rfl

/-- A hand attached to a hold id that is absent from the route
contributes no directionality penalty. -/
theorem handPenalty_dangling (com : Point) (holds : List Hold) (rm : Bool)
    (x y : ℝ) (hid : String) (hfind : findHold holds hid = none) :
    handPenalty com holds rm (.attached x y hid) = 0 := by
  unfold handPenalty
  dsimp only
  rw [hfind]

/-- `applyConstraint` reads only a limb's coordinates, never its hold
id: an attached limb and a smearing limb at the same point constrain
identically. -/
theorem applyConstraint_att_smear (c : Point) (x y : ℝ) (hid : String)
    (m : ℝ) (o : Point) (mi : ℝ) :
    applyConstraint c (some (.attached x y hid)) m o mi =
      applyConstraint c (some (.smearing x y)) m o mi := rfl

/-- Limbs used by the C7 counterexample: a hand attached to a hold id
that exists in no route. -/
def ghostLimbs : Limbs := ⟨some (.attached (-3.25) 0 "ghost"), none, none, none⟩

theorem ghostACFix (hid : String) :
    applyConstraint ⟨0, 22.22⟩ (some (.attached (-3.25) 0 hid))
    (MAX_REACH.hand * 0.99) leftHandOffset 3.0 = ⟨0, 22.22⟩ := by
  have hd : Real.sqrt
      (((LimbVal.attached (-3.25) 0 hid).px - ((⟨0, 22.22⟩ : Point).x + leftHandOffset.x)) *
        ((LimbVal.attached (-3.25) 0 hid).px - ((⟨0, 22.22⟩ : Point).x + leftHandOffset.x)) +
       ((LimbVal.attached (-3.25) 0 hid).py - ((⟨0, 22.22⟩ : Point).y + leftHandOffset.y)) *
        ((LimbVal.attached (-3.25) 0 hid).py - ((⟨0, 22.22⟩ : Point).y + leftHandOffset.y)))
      = 12.87 := by
    apply sqrt_mul_self_eval (by norm_num)
    simp only [LimbVal.px, LimbVal.py, leftHandOffset, ANATOMY.shoulderWidth,
      ANATOMY.torsoHeight]
    norm_num
  rw [applyConstraint_eval_ok hd
    (by norm_num [MAX_REACH.hand, ANATOMY.armUpper, ANATOMY.armLower])
    (by norm_num)]

theorem ghostPassA : constrainPass ghostLimbs ⟨0, 50⟩ = ⟨0, 22.22⟩ := by
  rw [constrainPass_eq]
  dsimp only [ghostLimbs]
  rw [reachCexAC1 "ghost"]
  simp only [applyConstraint_none]

theorem ghostPassB : constrainPass ghostLimbs ⟨0, 22.22⟩ = ⟨0, 22.22⟩ := by
  rw [constrainPass_eq]
  dsimp only [ghostLimbs]
  rw [ghostACFix "ghost"]
  simp only [applyConstraint_none]

/-- C7 counterexample: a limb whose `holdId` resolves to no hold is NOT
treated as Detached by the body constraint: `constrainBodyPosition`
(which never consults the hold list) still pulls the body to the
dangling hand's stored position, while the same call with the hand
Detached leaves the body in place. -/
theorem dangling_hold_not_detached :
    findHold [] "ghost" = none ∧
    ghostLimbs.leftHand = some (.attached (-3.25) 0 "ghost") ∧
    constrainBodyPosition ⟨0, 50⟩ ghostLimbs [] ≠
      constrainBodyPosition ⟨0, 50⟩ nullLimbs [] := by
  refine ⟨rfl, rfl, ?_⟩
  have h1 : constrainBodyPosition ⟨0, 50⟩ ghostLimbs [] = ⟨0, 22.22⟩ := by
    show constrainPass ghostLimbs (constrainPass ghostLimbs
      (constrainPass ghostLimbs (constrainPass ghostLimbs ⟨0, 50⟩))) = _
    rw [ghostPassA, ghostPassB, ghostPassB, ghostPassB]
  have h2 : constrainBodyPosition ⟨0, 50⟩ nullLimbs [] = ⟨0, 50⟩ := rfl
  rw [h1, h2]
  norm_num [Point.mk.injEq]

/-- C7 (amended): an unresolvable attachment is never fatal, and every
hold-specific term is skipped for it, but the limb is NOT treated as
Detached — it still participates as an active, hold-less contact at
its stored coordinates.  For a dangling left hand: (a) the body
constraint treats it exactly like a Smearing contact at the same
point; (b) its fatigue pump delta is 0 (not the detached rest value
-0.05); (c) friction and (d) stability coincide with the same state
where the hand is Smearing at the same point. -/
theorem dangling_hold_semantics (hx hy : ℝ) (hid : String)
    (rh lf rf : Option LimbVal) (st : ℝ) (ap : ArmPump) (ch ba : ℝ)
    (stat : Status) (com vel : Point) (holds : List Hold)
    (holdDrains : HoldType → ℝ) (wallAngle : ℝ) (rm : Bool) (c : Point)
    (hfind : findHold holds hid = none) :
    constrainBodyPosition c ⟨some (.attached hx hy hid), rh, lf, rf⟩ holds =
      constrainBodyPosition c ⟨some (.smearing hx hy), rh, lf, rf⟩ holds ∧
    (calculateTickDrain ⟨⟨some (.attached hx hy hid), rh, lf, rf⟩, st, ap, ch, ba, stat, com, vel⟩
        holds holdDrains wallAngle rm).leftPump = 0 ∧
    getFrictionPenalty ⟨⟨some (.attached hx hy hid), rh, lf, rf⟩, st, ap, ch, ba, stat, com, vel⟩
        holds wallAngle rm =
      getFrictionPenalty ⟨⟨some (.smearing hx hy), rh, lf, rf⟩, st, ap, ch, ba, stat, com, vel⟩
        holds wallAngle rm ∧
    calculateStability ⟨⟨some (.attached hx hy hid), rh, lf, rf⟩, st, ap, ch, ba, stat, com, vel⟩
        holds wallAngle rm =
      calculateStability ⟨⟨some (.smearing hx hy), rh, lf, rf⟩, st, ap, ch, ba, stat, com, vel⟩
        holds wallAngle rm := by
  have hhand : handPenalty com holds rm (.attached hx hy hid) =
      handPenalty com holds rm (.smearing hx hy) := by
    rw [handPenalty_dangling com holds rm hx hy hid hfind, handPenalty_smearing]
  have hfric : getFrictionPenalty
      ⟨⟨some (.attached hx hy hid), rh, lf, rf⟩, st, ap, ch, ba, stat, com, vel⟩
      holds wallAngle rm =
      getFrictionPenalty
      ⟨⟨some (.smearing hx hy), rh, lf, rf⟩, st, ap, ch, ba, stat, com, vel⟩
      holds wallAngle rm := by
    unfold getFrictionPenalty feetPenalty
    simp only [List.filterMap_cons, id_eq, List.isEmpty_cons, List.map_cons,
      List.sum_cons]
    rw [hhand]
  refine ⟨?_, ?_, hfric, ?_⟩
  · unfold constrainBodyPosition
    have hpass : ∀ p : Point,
        constrainPass ⟨some (.attached hx hy hid), rh, lf, rf⟩ p =
        constrainPass ⟨some (.smearing hx hy), rh, lf, rf⟩ p := by
      intro p
      rw [constrainPass_eq, constrainPass_eq]
      dsimp only
      rw [applyConstraint_att_smear]
    rw [hpass, hpass, hpass, hpass]
  · unfold calculateTickDrain
    rw [if_neg (by simp [Limbs.list])]
    dsimp only
    unfold calculateArmPump
    dsimp only
    rw [hfind]
  · unfold calculateStability
    rw [hfric]
    simp only [Limbs.list, List.filterMap_cons, id_eq, List.isEmpty_cons,
      List.length_cons, List.map_cons, List.sum_cons, List.headD_cons, LimbVal.px]

theorem dangling_hold_semantics_witness :
    findHold [] "ghost" = none ∧
    ((calculateTickDrain
        ⟨⟨some (.attached 46.75 30 "ghost"), none, none, none⟩, 50, ⟨0, 0⟩, 100, 0,
          .climbing, ⟨50, 50⟩, ⟨0, 0⟩⟩
        [] HOLD_STAMINA_DRAIN 0 false).leftPump = 0 ∧
     calculateStability
        ⟨⟨some (.attached 46.75 30 "ghost"), none, none, none⟩, 50, ⟨0, 0⟩, 100, 0,
          .climbing, ⟨50, 50⟩, ⟨0, 0⟩⟩ [] 0 false =
      calculateStability
        ⟨⟨some (.smearing 46.75 30), none, none, none⟩, 50, ⟨0, 0⟩, 100, 0,
          .climbing, ⟨50, 50⟩, ⟨0, 0⟩⟩ [] 0 false) := by
  refine ⟨rfl, ?_, ?_⟩
  · exact (dangling_hold_semantics 46.75 30 "ghost" none none none 50 ⟨0, 0⟩ 100 0
      .climbing ⟨50, 50⟩ ⟨0, 0⟩ [] HOLD_STAMINA_DRAIN 0 false ⟨50, 50⟩ rfl).2.1
  · exact (dangling_hold_semantics 46.75 30 "ghost" none none none 50 ⟨0, 0⟩ 100 0
      .climbing ⟨50, 50⟩ ⟨0, 0⟩ [] HOLD_STAMINA_DRAIN 0 false ⟨50, 50⟩ rfl).2.2.2

/-! ## C2 — ticks on a `topped` climber -/

/-- Unfolding of `tick` along the main (airborne, non-falling) path. -/
theorem tick_main_eq (cfg : TickConfig) (inp : SimInput)
    (hdt : ¬ inp.safeDt ≤ 0)
    (hnf : ¬ (withVelocity inp.prevCOM inp.safeDt inp.state).status = .falling)
    (hng : ¬ (cfg.groundY - 16 ≤
        (withVelocity inp.prevCOM inp.safeDt inp.state).centerOfMass.y ∧
        (!cfg.isUserDragging) = true)) :
    tick cfg inp =
      (let s0 := withVelocity inp.prevCOM inp.safeDt inp.state
       let s1 := if (!cfg.isUserDragging) = true then
           physicsStep cfg.holds cfg.wallAngle s0 else s0
       let gl := if s1.status = .climbing ∧ (!cfg.isUserDragging) = true then
           gameLogicStep cfg.holds cfg.wallAngle cfg.realismMode
             cfg.infiniteStamina s1 inp.acc inp.safeDt
         else ({ s1 with balance := 0 }, inp.acc, some false)
       ⟨checkFallStep cfg.groundY cfg.isUserDragging gl.1,
        inp.state.centerOfMass, gl.2.1, gl.2.2⟩) := by
  unfold tick
  rw [if_neg hdt]
  dsimp only
  rw [if_neg hnf, if_neg hng]

/-- Auto-detach either keeps a limb slot or nulls it. -/
theorem checkAndDetach_cases (p off : Point) (r : ℝ) (slot : Option LimbVal) :
    checkAndDetach p off r slot = slot ∨ checkAndDetach p off r slot = none := by
  match slot with
  | none => exact Or.inl rfl
  | some v =>
    unfold checkAndDetach
    dsimp only
    split_ifs
    · exact Or.inr rfl
    · exact Or.inl rfl

/-- On a non-`climbing` state the free-fall check moves at most the
centre of mass. -/
theorem checkFallStep_nonclimbing (g : ℝ) (drag : Bool) (s : ClimberState)
    (h : ¬ s.status = .climbing) :
    (checkFallStep g drag s).stamina = s.stamina ∧
    (checkFallStep g drag s).armPump = s.armPump ∧
    (checkFallStep g drag s).chalk = s.chalk ∧
    (checkFallStep g drag s).balance = s.balance ∧
    (checkFallStep g drag s).limbs = s.limbs ∧
    (checkFallStep g drag s).status = s.status := by
  unfold checkFallStep
  dsimp only
  split_ifs with h1 <;> exact ⟨rfl, rfl, rfl, rfl, rfl, rfl⟩

/-- C2 (amended): a tick on a `topped` climber that is airborne (or
being dragged) leaves stamina, both arm pumps and chalk unchanged and
keeps status `topped`; however `balance` is RESET TO 0 (not left
unchanged), and the physics step may auto-detach limbs (each limb slot
is either unchanged or nulled).  The original claim fails on `balance`
and on grounded `topped` states (see the counterexample). -/
theorem topped_tick_gauges_frozen (cfg : TickConfig) (inp : SimInput)
    (hst : inp.state.status = .topped) (hdt : 0 < inp.safeDt)
    (hair : cfg.isUserDragging = true ∨
      inp.state.centerOfMass.y < cfg.groundY - 16) :
    (tick cfg inp).state.stamina = inp.state.stamina ∧
    (tick cfg inp).state.armPump = inp.state.armPump ∧
    (tick cfg inp).state.chalk = inp.state.chalk ∧
    (tick cfg inp).state.balance = 0 ∧
    (tick cfg inp).state.status = .topped ∧
    ((tick cfg inp).state.limbs.leftHand = inp.state.limbs.leftHand ∨
      (tick cfg inp).state.limbs.leftHand = none) ∧
    ((tick cfg inp).state.limbs.rightHand = inp.state.limbs.rightHand ∨
      (tick cfg inp).state.limbs.rightHand = none) ∧
    ((tick cfg inp).state.limbs.leftFoot = inp.state.limbs.leftFoot ∨
      (tick cfg inp).state.limbs.leftFoot = none) ∧
    ((tick cfg inp).state.limbs.rightFoot = inp.state.limbs.rightFoot ∨
      (tick cfg inp).state.limbs.rightFoot = none) := by
  have hs0 : (withVelocity inp.prevCOM inp.safeDt inp.state).status = .topped := hst
  have hnf : ¬ (withVelocity inp.prevCOM inp.safeDt inp.state).status = .falling := by
    rw [hs0]; simp
  have hng : ¬ (cfg.groundY - 16 ≤
      (withVelocity inp.prevCOM inp.safeDt inp.state).centerOfMass.y ∧
      (!cfg.isUserDragging) = true) := by
    rcases hair with h | h
    · intro hc
      rw [h] at hc
      simp at hc
    · intro hc
      exact absurd hc.1 (not_le.mpr h)
  rw [tick_main_eq cfg inp (not_le.mpr hdt) hnf hng]
  dsimp only
  rcases Bool.eq_false_or_eq_true cfg.isUserDragging with hb | hb
  · -- dragging: physics and game logic both skipped
    rw [hb]
    simp only [Bool.not_true]
    rw [if_neg (by simp)]
    rw [if_neg (by simp)]
    have hcf := checkFallStep_nonclimbing cfg.groundY true
      { withVelocity inp.prevCOM inp.safeDt inp.state with balance := 0 }
      (by
        show ¬ (withVelocity inp.prevCOM inp.safeDt inp.state).status = .climbing
        rw [hs0]
        simp)
    refine ⟨hcf.1, hcf.2.1, hcf.2.2.1, hcf.2.2.2.1, ?_, ?_, ?_, ?_, ?_⟩
    · rw [hcf.2.2.2.2.2]; exact hs0
    · rw [hcf.2.2.2.2.1]; exact Or.inl rfl
    · rw [hcf.2.2.2.2.1]; exact Or.inl rfl
    · rw [hcf.2.2.2.2.1]; exact Or.inl rfl
    · rw [hcf.2.2.2.2.1]; exact Or.inl rfl
  · -- not dragging: the physics step runs
    rw [hb]
    simp only [Bool.not_false]
    rw [if_pos True.intro]
    have hs1 : (physicsStep cfg.holds cfg.wallAngle
        (withVelocity inp.prevCOM inp.safeDt inp.state)).status = .topped := hs0
    rw [if_neg (by
      intro hc
      rw [hs1] at hc
      simp at hc)]
    have hcf := checkFallStep_nonclimbing cfg.groundY false
      { physicsStep cfg.holds cfg.wallAngle
          (withVelocity inp.prevCOM inp.safeDt inp.state) with balance := 0 }
      (by
        show ¬ (physicsStep cfg.holds cfg.wallAngle
          (withVelocity inp.prevCOM inp.safeDt inp.state)).status = .climbing
        rw [hs1]
        simp)
    refine ⟨hcf.1, hcf.2.1, hcf.2.2.1, hcf.2.2.2.1, ?_, ?_, ?_, ?_, ?_⟩
    · rw [hcf.2.2.2.2.2]; exact hs1
    · rw [hcf.2.2.2.2.1]; exact checkAndDetach_cases _ _ _ _
    · rw [hcf.2.2.2.2.1]; exact checkAndDetach_cases _ _ _ _
    · rw [hcf.2.2.2.2.1]; exact checkAndDetach_cases _ _ _ _
    · rw [hcf.2.2.2.2.1]; exact checkAndDetach_cases _ _ _ _

/-- A `topped` climber hanging mid-wall with nonzero balance. -/
def toppedCexState : ClimberState :=
  ⟨nullLimbs, 20, ⟨10, 10⟩, 60, 30, .topped, ⟨50, 50⟩, ⟨0, 0⟩⟩

def toppedCfg : TickConfig := ⟨[], 0, 100, false, false, false⟩

/-- C2 counterexample: on a `topped` state with `balance = 30`, one
tick resets `balance` to 0 — `topped` is not mutation-free. -/
theorem topped_tick_not_frozen :
    toppedCexState.status = .topped ∧
    (tick toppedCfg ⟨toppedCexState, ⟨50, 50⟩, 0, 16⟩).state.balance ≠
      toppedCexState.balance := by
  refine ⟨rfl, ?_⟩
  have h := topped_tick_gauges_frozen toppedCfg ⟨toppedCexState, ⟨50, 50⟩, 0, 16⟩
    rfl (by norm_num) (Or.inr (by norm_num [toppedCexState, toppedCfg]))
  rw [h.2.2.2.1]
  norm_num [toppedCexState]

theorem topped_tick_gauges_frozen_witness :
    (tick toppedCfg ⟨toppedCexState, ⟨50, 50⟩, 0, 16⟩).state.stamina = 20 ∧
    (tick toppedCfg ⟨toppedCexState, ⟨50, 50⟩, 0, 16⟩).state.chalk = 60 ∧
    (tick toppedCfg ⟨toppedCexState, ⟨50, 50⟩, 0, 16⟩).state.balance = 0 ∧
    (tick toppedCfg ⟨toppedCexState, ⟨50, 50⟩, 0, 16⟩).state.status = .topped := by
  have h := topped_tick_gauges_frozen toppedCfg ⟨toppedCexState, ⟨50, 50⟩, 0, 16⟩
    rfl (by norm_num) (Or.inr (by norm_num [toppedCexState, toppedCfg]))
  exact ⟨h.1, h.2.2.1, h.2.2.2.1, h.2.2.2.2.1⟩

/-! ## C5 — limbs while falling -/

theorem fallingStep_inv (g : ℝ) (s : ClimberState) :
    (fallingStep g s).status = .falling → (fallingStep g s).limbs = nullLimbs := by
  unfold fallingStep
  dsimp only
  split_ifs with h1 <;> intro hc <;> first | rfl | simp at hc

theorem groundedStep_status (g : ℝ) (s : ClimberState) :
    (groundedStep g s).status = .idle := rfl

theorem checkFallStep_inv (g : ℝ) (drag : Bool) (s : ClimberState)
    (h : s.status = .falling → s.limbs = nullLimbs) :
    (checkFallStep g drag s).status = .falling →
    (checkFallStep g drag s).limbs = nullLimbs := by
  unfold checkFallStep
  dsimp only
  split_ifs with h1 h2
  · intro _; rfl
  · exact h
  · exact h

theorem applyDrains_inv (inf : Bool) (drains : DrainResult) (s : ClimberState)
    (h : s.status = .falling → s.limbs = nullLimbs) :
    (applyDrains inf drains s).status = .falling →
    (applyDrains inf drains s).limbs = nullLimbs := by
  unfold applyDrains
  dsimp only
  split_ifs <;> intro hf <;> simp_all [nullLimbs]

theorem fallImbalance_inv (inf : Bool) (bs : ℝ) (s : ClimberState)
    (h : s.status = .falling → s.limbs = nullLimbs) :
    (fallImbalance inf bs s).status = .falling →
    (fallImbalance inf bs s).limbs = nullLimbs := by
  unfold fallImbalance
  split_ifs with h1
  · intro _; rfl
  · exact h

theorem gameLogicStep_inv (holds : List Hold) (wallAngle : ℝ)
    (rm inf : Bool) (s : ClimberState) (acc dt : ℝ)
    (h : ¬ s.status = .falling) :
    (gameLogicStep holds wallAngle rm inf s acc dt).1.status = .falling →
    (gameLogicStep holds wallAngle rm inf s acc dt).1.limbs = nullLimbs := by
  unfold gameLogicStep
  dsimp only
  split_ifs <;>
    first
      | exact fun hf => absurd hf h
      | (intro hf
         apply applyDrains_inv _ _ _ _ hf
         apply fallImbalance_inv
         intro hf2
         exact absurd hf2 h)

/-- C5 (amended): after any tick whose output status is `falling`, all
four limbs are Detached — `tick` re-nulls the limbs on every falling
path.  The original claim fails for external limb-placement events:
`handlePlaceLimb` does not guard against `falling` (counterexample),
so the invariant is only restored by the next tick. -/
theorem falling_tick_limbs_detached (cfg : TickConfig) (inp : SimInput)
    (hdt : 0 < inp.safeDt)
    (hfall : (tick cfg inp).state.status = .falling) :
    (tick cfg inp).state.limbs = nullLimbs := by
  revert hfall
  unfold tick
  rw [if_neg (not_le.mpr hdt)]
  dsimp only
  by_cases hf0 : (withVelocity inp.prevCOM inp.safeDt inp.state).status = .falling
  · rw [if_pos hf0]
    exact fallingStep_inv cfg.groundY _
  · rw [if_neg hf0]
    by_cases hg : cfg.groundY - 16 ≤
        (withVelocity inp.prevCOM inp.safeDt inp.state).centerOfMass.y ∧
        (!cfg.isUserDragging) = true
    · rw [if_pos hg]
      intro hc
      rw [groundedStep_status] at hc
      simp at hc
    · rw [if_neg hg]
      rcases Bool.eq_false_or_eq_true cfg.isUserDragging with hb | hb
      · rw [hb]
        simp only [Bool.not_true]
        rw [if_neg (by simp)]
        rw [if_neg (by simp)]
        exact checkFallStep_inv cfg.groundY true _ (fun hf => absurd hf hf0)
      · rw [hb]
        simp only [Bool.not_false]
        rw [if_pos True.intro]
        by_cases hcl : (physicsStep cfg.holds cfg.wallAngle
            (withVelocity inp.prevCOM inp.safeDt inp.state)).status = .climbing ∧ True
        · rw [if_pos hcl]
          exact checkFallStep_inv cfg.groundY false _
            (gameLogicStep_inv cfg.holds cfg.wallAngle cfg.realismMode
              cfg.infiniteStamina _ inp.acc inp.safeDt (fun hf => absurd hf hf0))
        · rw [if_neg hcl]
          exact checkFallStep_inv cfg.groundY false _ (fun hf => absurd hf hf0)

/-- A mid-air falling climber (all limbs already Detached). -/
def fallingCexState : ClimberState :=
  ⟨nullLimbs, 50, ⟨0, 0⟩, 80, 0, .falling, ⟨50, 50⟩, ⟨0, 0⟩⟩

def fallingCfg : TickConfig := ⟨[], 0, 100, false, false, false⟩

/-- C5 counterexample: `handlePlaceLimb` applied while `status =
falling` attaches the limb and leaves the status `falling`, violating
the claimed invariant "while falling, all four limbs are Detached"
(the limb-drag handler only blocks `topped`, not `falling`). -/
theorem falling_place_limb_attaches :
    fallingCexState.status = .falling ∧
    (handlePlaceLimb [] (some (.smearing 40 95)) .leftFoot fallingCexState).status =
      .falling ∧
    (handlePlaceLimb [] (some (.smearing 40 95)) .leftFoot fallingCexState).limbs.leftFoot =
      some (.smearing 40 95) :=
  ⟨rfl, rfl, rfl⟩

theorem falling_tick_limbs_detached_witness :
    (tick fallingCfg ⟨fallingCexState, ⟨50, 50⟩, 0, 16⟩).state.status = .falling ∧
    (tick fallingCfg ⟨fallingCexState, ⟨50, 50⟩, 0, 16⟩).state.limbs = nullLimbs := by
  have hfall : (tick fallingCfg ⟨fallingCexState, ⟨50, 50⟩, 0, 16⟩).state.status =
      .falling := by
    unfold tick
    rw [if_neg (by norm_num)]
    dsimp only
    rw [if_pos (show (withVelocity ⟨50, 50⟩ 16 fallingCexState).status = .falling
      from rfl)]
    unfold fallingStep
    dsimp only
    rw [if_pos (by norm_num [withVelocity, fallingCexState, fallingCfg])]
    rfl
  exact ⟨hfall, falling_tick_limbs_detached fallingCfg
    ⟨fallingCexState, ⟨50, 50⟩, 0, 16⟩ (by norm_num) hfall⟩

/-! ## C9 — the chalk term of the friction penalty -/

theorem handPenalty_nonneg (com : Point) (holds : List Hold) (rm : Bool)
    (v : LimbVal) : 0 ≤ handPenalty com holds rm v := by
  match v with
  | .smearing x y => exact le_of_eq (handPenalty_smearing com holds rm x y).symm
  | .attached x y hid =>
    unfold handPenalty
    dsimp only
    cases hfind : findHold holds hid with
    | none => simp
    | some hold =>
      dsimp only
      obtain ⟨hi, hx2, hy2, t, rot⟩ := hold
      cases t <;> dsimp only <;> split_ifs <;>
        first
          | exact le_rfl
          | exact mul_nonneg (div_nonneg (by linarith) (by norm_num)) (by norm_num)
          | (rw [show (180 : ℝ) - 180 = 0 from by norm_num, div_zero, zero_mul])

theorem footPenalty_nonneg (holds : List Hold) (a : ℝ) (rm : Bool)
    (f : LimbVal) : 0 ≤ footPenalty holds a rm f := by
  match f with
  | .attached x y hid =>
    unfold footPenalty
    dsimp only
    cases hfind : findHold holds hid with
    | none => simp
    | some hold =>
      dsimp only
      split_ifs <;>
        first
          | exact le_rfl
          | exact mul_nonneg (by linarith) (by norm_num)
  | .smearing x y =>
    unfold footPenalty
    dsimp only
    split_ifs <;> linarith

theorem feetPenalty_nonneg (L : Limbs) (holds : List Hold) (a : ℝ)
    (rm : Bool) : 0 ≤ feetPenalty L holds a rm := by
  unfold feetPenalty
  dsimp only
  split_ifs <;>
    first
      | linarith [le_max_left (0 : ℝ) (a - 10)]
      | (apply List.sum_nonneg
         intro p hp
         simp only [List.mem_map] at hp
         obtain ⟨f, _, rfl⟩ := hp
         exact footPenalty_nonneg holds a rm f)

theorem handsSum_nonneg (com : Point) (holds : List Hold) (rm : Bool)
    (l : List LimbVal) : 0 ≤ (l.map (handPenalty com holds rm)).sum := by
  apply List.sum_nonneg
  intro p hp
  simp only [List.mem_map] at hp
  obtain ⟨v, _, rfl⟩ := hp
  exact handPenalty_nonneg com holds rm v

/-- C9: the chalk term of `getFrictionPenalty` is
`max(0, 30 - chalk) * (0.8 realism | 0.5 normal)`, independent of all
other terms; consequently, for every limb configuration and hold list
at wall angle 0, the penalty at chalk = 0 exceeds the penalty at
chalk = 100 by exactly `30 * (0.8 | 0.5)`, hence is strictly greater. -/
theorem chalk_penalty_monotone (s : ClimberState) (holds : List Hold)
    (rm : Bool) :
    getFrictionPenalty { s with chalk := 0 } holds 0 rm =
      getFrictionPenalty { s with chalk := 100 } holds 0 rm +
        30 * (if rm then 0.8 else 0.5) ∧
    getFrictionPenalty { s with chalk := 100 } holds 0 rm <
      getFrictionPenalty { s with chalk := 0 } holds 0 rm := by
  have hk0 : (0 : ℝ) < 30 * (if rm then 0.8 else 0.5) := by
    split_ifs <;> norm_num
  have h0 : chalkPenalty 0 rm = 30 * (if rm then 0.8 else 0.5) := by
    unfold chalkPenalty
    norm_num
  have h100 : chalkPenalty 100 rm = 0 := by
    unfold chalkPenalty
    norm_num
  have hrest : 0 ≤ feetPenalty s.limbs holds 0 rm +
      (([s.limbs.leftHand, s.limbs.rightHand].filterMap id).map
        (handPenalty s.centerOfMass holds rm)).sum :=
    add_nonneg (feetPenalty_nonneg s.limbs holds 0 rm)
      (handsSum_nonneg s.centerOfMass holds rm _)
  unfold getFrictionPenalty
  dsimp only
  rw [h0, h100]
  rw [max_eq_right (by linarith), max_eq_right (by linarith)]
  constructor
  · ring
  · linarith

/-! ## C4 — the balance fall trigger -/

/-- Drain application on an already-falling, already-detached state
keeps status `falling` and limbs null. -/
theorem applyDrains_falling (drains : DrainResult) (s : ClimberState)
    (hs : s.status = .falling) (hl : s.limbs = nullLimbs) :
    (applyDrains false drains s).status = .falling ∧
    (applyDrains false drains s).limbs = nullLimbs := by
  unfold applyDrains
  dsimp only
  split_ifs <;> constructor <;> simp_all [nullLimbs]

/-- When the drain interval fires with the freshly computed stability
at or above 100 and infinite stamina off, the game-logic step forces a
fall with all limbs detached. -/
theorem gameLogicStep_trigger_fall (holds : List Hold) (wallAngle : ℝ)
    (rm : Bool) (s : ClimberState) (acc dt : ℝ)
    (hacc : 100 < acc + dt)
    (hbal : 100 ≤ calculateStability s holds wallAngle rm) :
    (gameLogicStep holds wallAngle rm false s acc dt).1.status = .falling ∧
    (gameLogicStep holds wallAngle rm false s acc dt).1.limbs = nullLimbs := by
  unfold gameLogicStep
  dsimp only
  rw [if_pos hacc]
  apply applyDrains_falling
  · unfold fallImbalance
    rw [if_pos ⟨hbal, by simp⟩]
  · unfold fallImbalance
    rw [if_pos ⟨hbal, by simp⟩]

/-- C4 (amended): if the drain interval fires on a climbing,
non-user-dragged, airborne tick AND the infinite-stamina override is
OFF, a freshly computed stability score ≥ 100 forces `status = falling`
with all four limbs Detached by the end of that tick.  (With infinite
stamina on, the fall branch is skipped — see the counterexample.) -/
theorem balance_fall_trigger (cfg : TickConfig) (inp : SimInput)
    (hdt : 0 < inp.safeDt)
    (hcl : inp.state.status = .climbing)
    (hdrag : cfg.isUserDragging = false)
    (hinf : cfg.infiniteStamina = false)
    (hng : ¬ cfg.groundY - 16 ≤ inp.state.centerOfMass.y)
    (hacc : 100 < inp.acc + inp.safeDt)
    (hbal : 100 ≤ calculateStability
      (physicsStep cfg.holds cfg.wallAngle
        (withVelocity inp.prevCOM inp.safeDt inp.state))
      cfg.holds cfg.wallAngle cfg.realismMode) :
    (tick cfg inp).state.status = .falling ∧
    (tick cfg inp).state.limbs = nullLimbs := by
  have hnf : ¬ (withVelocity inp.prevCOM inp.safeDt inp.state).status = .falling := by
    show ¬ inp.state.status = .falling
    rw [hcl]; simp
  have hng2 : ¬ (cfg.groundY - 16 ≤
      (withVelocity inp.prevCOM inp.safeDt inp.state).centerOfMass.y ∧
      (!cfg.isUserDragging) = true) := fun hc => hng hc.1
  rw [tick_main_eq cfg inp (not_le.mpr hdt) hnf hng2]
  dsimp only
  rw [hdrag]
  simp only [Bool.not_false]
  rw [if_pos True.intro]
  rw [if_pos (⟨show (physicsStep cfg.holds cfg.wallAngle
    (withVelocity inp.prevCOM inp.safeDt inp.state)).status = .climbing from hcl,
    True.intro⟩ :
    (physicsStep cfg.holds cfg.wallAngle
      (withVelocity inp.prevCOM inp.safeDt inp.state)).status = .climbing ∧ True)]
  rw [hinf]
  have hgl := gameLogicStep_trigger_fall cfg.holds cfg.wallAngle cfg.realismMode
    (physicsStep cfg.holds cfg.wallAngle
      (withVelocity inp.prevCOM inp.safeDt inp.state))
    inp.acc inp.safeDt hacc hbal
  have hcf := checkFallStep_nonclimbing cfg.groundY false
    (gameLogicStep cfg.holds cfg.wallAngle cfg.realismMode false
      (physicsStep cfg.holds cfg.wallAngle
        (withVelocity inp.prevCOM inp.safeDt inp.state))
      inp.acc inp.safeDt).1
    (by rw [hgl.1]; simp)
  exact ⟨hcf.2.2.2.2.2.trans hgl.1, hcf.2.2.2.2.1.trans hgl.2⟩

@[simp] theorem checkAndDetach_none (p off : Point) (r : ℝ) :
    checkAndDetach p off r none = none := rfl

/-- Keep branch of the auto-detach check. -/
theorem checkAndDetach_keep {p off : Point} {r : ℝ} {v : LimbVal}
    (h : ¬ r * 1.05 < calculateDistance ⟨p.x + off.x, p.y + off.y⟩ ⟨v.px, v.py⟩) :
    checkAndDetach p off r (some v) = some v := by
  unfold checkAndDetach
  dsimp only
  rw [if_neg h]

/-- A hand on a `start` (or `finish`) hold never incurs a
directionality penalty: the tolerance is the full 180°. -/
theorem handPenalty_found_start (com : Point) (holds : List Hold) (rm : Bool)
    (hx hy : ℝ) (hid : String) (hold : Hold)
    (hfind : findHold holds hid = some hold) (ht : hold.type = .start) :
    handPenalty com holds rm (.attached hx hy hid) = 0 := by
  unfold handPenalty
  dsimp only
  rw [hfind]
  dsimp only
  rw [ht]
  dsimp only
  rw [if_neg (not_lt.mpr (getAngleDiff_le_180 _ _))]

/-- Concrete single-hand scenario exercising the fall trigger: one
hand attached to a `start` hold, feet cut, on a −5° slab (campusing on
a negative angle incurs the 150 base friction penalty). -/
def fallTrigLimbs : Limbs := ⟨some (.attached 46.75 30.85 "s1"), none, none, none⟩

def fallTrigHolds : List Hold := [⟨"s1", 40, 90, .start, 0⟩]

def fallTrigState : ClimberState :=
  ⟨fallTrigLimbs, 4, ⟨0, 0⟩, 100, 0, .climbing, ⟨50, 50⟩, ⟨0, 0⟩⟩

def fallTrigMid : ClimberState :=
  ⟨fallTrigLimbs, 4, ⟨0, 0⟩, 100, 0, .climbing, ⟨50, 50.2⟩, ⟨0, 0⟩⟩

def fallTrigCfg : TickConfig := ⟨fallTrigHolds, -5, 100, false, false, false⟩

def fallTrigCfgInf : TickConfig := ⟨fallTrigHolds, -5, 100, false, true, false⟩

def fallTrigInp : SimInput := ⟨fallTrigState, ⟨50, 50⟩, 95, 16⟩

theorem fallTrig_withVel :
    withVelocity ⟨50, 50⟩ 16 fallTrigState = fallTrigState := by
  unfold withVelocity fallTrigState
  dsimp only
  norm_num [ClimberState.mk.injEq, Point.mk.injEq]

theorem fallTrig_AC :
    applyConstraint ⟨50, 50.2⟩ (some (.attached 46.75 30.85 "s1"))
      (MAX_REACH.hand * 0.99) leftHandOffset 3.0 = ⟨50, 50.2⟩ := by
  have hd : Real.sqrt
      (((LimbVal.attached 46.75 30.85 "s1").px - ((⟨50, 50.2⟩ : Point).x + leftHandOffset.x)) *
        ((LimbVal.attached 46.75 30.85 "s1").px - ((⟨50, 50.2⟩ : Point).x + leftHandOffset.x)) +
       ((LimbVal.attached 46.75 30.85 "s1").py - ((⟨50, 50.2⟩ : Point).y + leftHandOffset.y)) *
        ((LimbVal.attached 46.75 30.85 "s1").py - ((⟨50, 50.2⟩ : Point).y + leftHandOffset.y)))
      = 10 := by
    apply sqrt_mul_self_eval (by norm_num)
    simp only [LimbVal.px, LimbVal.py, leftHandOffset, ANATOMY.shoulderWidth,
      ANATOMY.torsoHeight]
    norm_num
  rw [applyConstraint_eval_ok hd
    (by norm_num [MAX_REACH.hand, ANATOMY.armUpper, ANATOMY.armLower])
    (by norm_num)]

theorem fallTrig_constrain :
    constrainBodyPosition ⟨50, 50.2⟩ fallTrigLimbs fallTrigHolds = ⟨50, 50.2⟩ := by
  have hpass : constrainPass fallTrigLimbs ⟨50, 50.2⟩ = ⟨50, 50.2⟩ := by
    rw [constrainPass_eq]
    dsimp only [fallTrigLimbs]
    rw [fallTrig_AC]
    simp only [applyConstraint_none]
  show constrainPass fallTrigLimbs (constrainPass fallTrigLimbs
    (constrainPass fallTrigLimbs (constrainPass fallTrigLimbs ⟨50, 50.2⟩))) = _
  rw [hpass, hpass, hpass, hpass]

theorem fallTrig_mid_eval :
    physicsStep fallTrigHolds (-5) fallTrigState = fallTrigMid := by
  unfold physicsStep
  dsimp only [fallTrigState, fallTrigLimbs]
  rw [if_neg (show ¬ (!(List.filterMap id
    ([none, none] : List (Option LimbVal))).isEmpty) = true from by simp)]
  rw [if_neg (show ¬ (0 < (List.filter isAttachedO
      [some (LimbVal.attached 46.75 30.85 "s1"), none]).length ∧ (5 : ℝ) < 4)
    from by rintro ⟨-, h5⟩; norm_num at h5)]
  dsimp only
  rw [show (⟨50 + 0 * 0.92, 50 + 0 * 0.92 + 0.2⟩ : Point) = ⟨50, 50.2⟩ from by
    norm_num [Point.mk.injEq]]
  rw [checkAndDetach_keep (by
    rw [calculateDistance_eval (d := 10) (by norm_num) (by
      simp only [LimbVal.px, LimbVal.py, leftHandOffset, ANATOMY.shoulderWidth,
        ANATOMY.torsoHeight]
      norm_num)]
    norm_num [MAX_REACH.hand, ANATOMY.armUpper, ANATOMY.armLower])]
  simp only [checkAndDetach_none]
  rw [show (⟨some (.attached 46.75 30.85 "s1"), none, none, none⟩ : Limbs) =
    fallTrigLimbs from rfl]
  rw [fallTrig_constrain]
  rfl

theorem fallTrig_friction :
    getFrictionPenalty fallTrigMid fallTrigHolds (-5) false = 150 := by
  unfold getFrictionPenalty feetPenalty
  dsimp only [fallTrigMid, fallTrigLimbs]
  rw [if_pos (show (List.filterMap id
    ([none, none] : List (Option LimbVal))).isEmpty = true from by simp)]
  rw [if_pos (show (!(List.filterMap id
      [some (LimbVal.attached 46.75 30.85 "s1"), none]).isEmpty) = true
    from by simp)]
  rw [if_pos (show (-5 : ℝ) < 0 from by norm_num)]
  simp only [List.filterMap_cons, id_eq, List.filterMap_nil, List.map_cons,
    List.map_nil, List.sum_cons, List.sum_nil]
  rw [handPenalty_found_start ⟨50, 50.2⟩ fallTrigHolds false 46.75 30.85 "s1"
    ⟨"s1", 40, 90, .start, 0⟩ rfl rfl]
  unfold chalkPenalty
  rw [show ((30 : ℝ) - 100) = -70 from by norm_num,
    max_eq_left (by norm_num : (-70 : ℝ) ≤ 0),
    show ((-5 : ℝ) - 10) = -15 from by norm_num,
    max_eq_left (by norm_num : (-15 : ℝ) ≤ 0)]
  rw [max_eq_right (by norm_num)]
  norm_num

theorem fallTrig_stability :
    calculateStability fallTrigMid fallTrigHolds (-5) false = 100 := by
  unfold calculateStability
  rw [if_neg (show (List.filterMap id fallTrigMid.limbs.list).isEmpty = true →
    False from by simp [fallTrigMid, fallTrigLimbs, Limbs.list])]
  rw [fallTrig_friction]
  dsimp only [fallTrigMid, fallTrigLimbs, Limbs.list]
  simp only [List.filterMap_cons, id_eq, List.filterMap_nil, List.map_cons,
    List.map_nil, List.sum_cons, List.sum_nil, List.length_cons,
    List.length_nil, LimbVal.px]
  norm_num [abs_of_nonneg, Real.sqrt_zero]

theorem balance_fall_trigger_witness :
    (tick fallTrigCfg fallTrigInp).state.status = .falling ∧
    (tick fallTrigCfg fallTrigInp).state.limbs = nullLimbs := by
  apply balance_fall_trigger
  · norm_num [fallTrigInp]
  · rfl
  · rfl
  · rfl
  · show ¬ (100 : ℝ) - 16 ≤ 50
    norm_num
  · show (100 : ℝ) < 95 + 16
    norm_num
  · show 100 ≤ calculateStability
      (physicsStep fallTrigHolds (-5) (withVelocity ⟨50, 50⟩ 16 fallTrigState))
      fallTrigHolds (-5) false
    rw [fallTrig_withVel, fallTrig_mid_eval, fallTrig_stability]

/-- C4 counterexample: the identical tick — drain interval firing,
status `climbing`, user not dragging, freshly computed stability equal
to 100 — but with the infinite-stamina override ON ends the tick still
`climbing`: the fall is NOT forced, because the code guards the
balance-fall branch with `!infiniteStamina`. -/
theorem balance_fall_trigger_infinite_stamina :
    fallTrigState.status = .climbing ∧
    (100 : ℝ) < 95 + 16 ∧
    100 ≤ calculateStability
      (physicsStep fallTrigHolds (-5) (withVelocity ⟨50, 50⟩ 16 fallTrigState))
      fallTrigHolds (-5) false ∧
    (tick fallTrigCfgInf fallTrigInp).state.status = .climbing := by
  refine ⟨rfl, by norm_num, ?_, ?_⟩
  · rw [fallTrig_withVel, fallTrig_mid_eval, fallTrig_stability]
  · have hnf : ¬ (withVelocity fallTrigInp.prevCOM fallTrigInp.safeDt
        fallTrigInp.state).status = .falling := by
      rw [show fallTrigInp.state = fallTrigState from rfl,
        show fallTrigInp.prevCOM = (⟨50, 50⟩ : Point) from rfl,
        show fallTrigInp.safeDt = (16 : ℝ) from rfl, fallTrig_withVel]
      simp [fallTrigState]
    have hng : ¬ (fallTrigCfgInf.groundY - 16 ≤
        (withVelocity fallTrigInp.prevCOM fallTrigInp.safeDt
          fallTrigInp.state).centerOfMass.y ∧
        (!fallTrigCfgInf.isUserDragging) = true) := by
      rintro ⟨hc, -⟩
      rw [show fallTrigInp.state = fallTrigState from rfl,
        show fallTrigInp.prevCOM = (⟨50, 50⟩ : Point) from rfl,
        show fallTrigInp.safeDt = (16 : ℝ) from rfl, fallTrig_withVel] at hc
      norm_num [fallTrigState, fallTrigCfgInf] at hc
    rw [tick_main_eq fallTrigCfgInf fallTrigInp (by norm_num [fallTrigInp]) hnf hng]
    dsimp only
    rw [show fallTrigCfgInf.isUserDragging = false from rfl]
    simp only [Bool.not_false]
    rw [if_pos True.intro]
    rw [show fallTrigInp.state = fallTrigState from rfl,
      show fallTrigInp.prevCOM = (⟨50, 50⟩ : Point) from rfl,
      show fallTrigInp.safeDt = (16 : ℝ) from rfl]
    rw [show fallTrigCfgInf.holds = fallTrigHolds from rfl,
      show fallTrigCfgInf.wallAngle = (-5 : ℝ) from rfl,
      show fallTrigCfgInf.realismMode = false from rfl,
      show fallTrigCfgInf.infiniteStamina = true from rfl,
      show fallTrigCfgInf.groundY = (100 : ℝ) from rfl]
    rw [fallTrig_withVel, fallTrig_mid_eval]
    rw [if_pos (⟨rfl, True.intro⟩ :
      fallTrigMid.status = .climbing ∧ True)]
    have hgl : (gameLogicStep fallTrigHolds (-5) false true fallTrigMid
        (fallTrigInp.acc) 16).1 = { fallTrigMid with
          balance := calculateStability fallTrigMid fallTrigHolds (-5) false } := by
      unfold gameLogicStep
      dsimp only
      rw [if_pos (by norm_num [fallTrigInp])]
      unfold fallImbalance
      rw [if_neg (by simp)]
      unfold applyDrains
      rw [if_pos rfl]
    rw [hgl]
    unfold checkFallStep
    dsimp only [fallTrigMid, fallTrigLimbs]
    rw [if_neg (by
      rintro ⟨-, hc, -⟩
      simp [isAttachedO, isAttachedV] at hc)]

/-! ## C3 — clamping of the gauge fields -/

theorem calculateStability_mem (s : ClimberState) (holds : List Hold)
    (a : ℝ) (rm : Bool) :
    0 ≤ calculateStability s holds a rm ∧
    calculateStability s holds a rm ≤ 100 := by
  unfold calculateStability
  dsimp only
  by_cases h : (List.filterMap id s.limbs.list).isEmpty = true
  · rw [if_pos h]
    norm_num
  · rw [if_neg h]
    exact ⟨le_min (by norm_num) (le_max_left 0 _), min_le_left _ _⟩

theorem calculateTickDrain_core_nonneg (s : ClimberState) (holds : List Hold)
    (hd : HoldType → ℝ) (a : ℝ) (rm : Bool) (hb : 0 ≤ s.balance) :
    0 ≤ (calculateTickDrain s holds hd a rm).core := by
  unfold calculateTickDrain
  dsimp only
  split_ifs <;> (try dsimp only) <;> first | linarith | norm_num

theorem withVelocity_InRange (pc : Point) (dt : ℝ) (s : ClimberState)
    (h : InRange s) : InRange (withVelocity pc dt s) := h

theorem physicsStep_InRange (holds : List Hold) (a : ℝ) (s : ClimberState)
    (h : InRange s) : InRange (physicsStep holds a s) := h

theorem setBalanceZero_InRange (s : ClimberState) (h : InRange s) :
    InRange { s with balance := 0 } := by
  obtain ⟨h1, h2, h3, h4, h5, h6, h7, h8, h9, h10⟩ := h
  exact ⟨h1, h2, h3, h4, h5, h6, h7, h8, by norm_num, by norm_num⟩

theorem checkFallStep_InRange (g : ℝ) (drag : Bool) (s : ClimberState)
    (h : InRange s) : InRange (checkFallStep g drag s) := by
  unfold checkFallStep
  dsimp only
  split_ifs <;> exact h

theorem fallingStep_InRange (g : ℝ) (s : ClimberState) (h : InRange s) :
    InRange (fallingStep g s) := by
  obtain ⟨h1, h2, h3, h4, h5, h6, h7, h8, h9, h10⟩ := h
  unfold fallingStep
  dsimp only
  split_ifs <;>
    refine ⟨?_, ?_, ?_, ?_, ?_, ?_, ?_, ?_, ?_, ?_⟩ <;>
    first | assumption | norm_num

theorem groundedStep_InRange (g : ℝ) (s : ClimberState) (h : InRange s) :
    InRange (groundedStep g s) := by
  obtain ⟨h1, h2, h3, h4, h5, h6, h7, h8, h9, h10⟩ := h
  unfold groundedStep
  dsimp only
  split_ifs <;>
    refine ⟨?_, ?_, ?_, ?_, ?_, ?_, ?_, ?_, ?_, ?_⟩ <;>
    (try dsimp only) <;>
    first
      | assumption
      | exact le_min (by norm_num) (by linarith)
      | exact min_le_left _ _
      | linarith
      | norm_num

theorem fallImbalance_InRange (inf : Bool) (bs : ℝ) (s : ClimberState)
    (h : InRange s) : InRange (fallImbalance inf bs s) := by
  obtain ⟨h1, h2, h3, h4, h5, h6, h7, h8, h9, h10⟩ := h
  unfold fallImbalance
  split_ifs <;>
    refine ⟨?_, ?_, ?_, ?_, ?_, ?_, ?_, ?_, ?_, ?_⟩ <;>
    first | assumption | norm_num

theorem applyDrains_InRange (inf : Bool) (drains : DrainResult)
    (s : ClimberState) (hcore : 0 ≤ drains.core) (h : InRange s) :
    InRange (applyDrains inf drains s) := by
  obtain ⟨h1, h2, h3, h4, h5, h6, h7, h8, h9, h10⟩ := h
  unfold applyDrains
  dsimp only
  split_ifs <;>
    refine ⟨?_, ?_, ?_, ?_, ?_, ?_, ?_, ?_, ?_, ?_⟩ <;>
    (try dsimp only) <;>
    first
      | assumption
      | exact le_max_left _ _
      | exact max_le (by norm_num) (min_le_left _ _)
      | exact max_le (by norm_num) (by linarith)
      | linarith
      | norm_num

theorem gameLogicStep_InRange (holds : List Hold) (a : ℝ) (rm inf : Bool)
    (s : ClimberState) (acc dt : ℝ) (h : InRange s) :
    InRange (gameLogicStep holds a rm inf s acc dt).1 := by
  unfold gameLogicStep
  dsimp only
  by_cases h1 : 100 < acc + dt
  · rw [if_pos h1]
    have hstab := calculateStability_mem s holds a rm
    have hs1 : InRange { s with balance := calculateStability s holds a rm } := by
      obtain ⟨g1, g2, g3, g4, g5, g6, g7, g8, -, -⟩ := h
      exact ⟨g1, g2, g3, g4, g5, g6, g7, g8, hstab.1, hstab.2⟩
    have hs2 := fallImbalance_InRange inf (calculateStability s holds a rm) _ hs1
    have hb2 : 0 ≤ (fallImbalance inf (calculateStability s holds a rm)
        { s with balance := calculateStability s holds a rm }).balance := by
      obtain ⟨-, -, -, -, -, -, -, -, hb, -⟩ := hs2
      exact hb
    exact applyDrains_InRange inf _ _
      (calculateTickDrain_core_nonneg _ holds HOLD_STAMINA_DRAIN a rm hb2) hs2
  · rw [if_neg h1]
    exact h

theorem chalkKeyStep_InRange (s : ClimberState) (h : InRange s) :
    InRange (chalkKeyStep s) := by
  obtain ⟨h1, h2, h3, h4, h5, h6, h7, h8, h9, h10⟩ := h
  unfold chalkKeyStep
  split_ifs <;>
    refine ⟨?_, ?_, ?_, ?_, ?_, ?_, ?_, ?_, ?_, ?_⟩ <;>
    (try dsimp only) <;>
    first
      | assumption
      | exact le_max_left _ _
      | exact max_le (by norm_num) (by linarith)
      | exact le_min (by norm_num) (by linarith)
      | exact min_le_left _ _
      | linarith
      | norm_num

theorem handlePlaceLimb_InRange (holds : List Hold) (val : Option LimbVal)
    (limb : LimbId) (s : ClimberState) (h : InRange s) :
    InRange (handlePlaceLimb holds val limb s) := h

theorem initClimber_InRange (g : ℝ) : InRange (initClimber g) := by
  refine ⟨?_, ?_, ?_, ?_, ?_, ?_, ?_, ?_, ?_, ?_⟩ <;>
    norm_num [initClimber, INITIAL_STAMINA, INITIAL_CHALK]

/-- One tick keeps all five gauge fields inside `[0, 100]`. -/
theorem tick_InRange (cfg : TickConfig) (inp : SimInput)
    (h : InRange inp.state) : InRange (tick cfg inp).state := by
  unfold tick
  by_cases hdt : inp.safeDt ≤ 0
  · rw [if_pos hdt]
    exact h
  · rw [if_neg hdt]
    dsimp only
    have h0 : InRange (withVelocity inp.prevCOM inp.safeDt inp.state) := h
    by_cases hf : (withVelocity inp.prevCOM inp.safeDt inp.state).status = .falling
    · rw [if_pos hf]
      exact fallingStep_InRange _ _ h0
    · rw [if_neg hf]
      by_cases hg : cfg.groundY - 16 ≤
          (withVelocity inp.prevCOM inp.safeDt inp.state).centerOfMass.y ∧
          (!cfg.isUserDragging) = true
      · rw [if_pos hg]
        exact groundedStep_InRange _ _ h0
      · rw [if_neg hg]
        by_cases hdrag : (!cfg.isUserDragging) = true
        · rw [if_pos hdrag]
          by_cases hcl : (physicsStep cfg.holds cfg.wallAngle
              (withVelocity inp.prevCOM inp.safeDt inp.state)).status = .climbing ∧
              (!cfg.isUserDragging) = true
          · rw [if_pos hcl]
            exact checkFallStep_InRange _ _ _
              (gameLogicStep_InRange _ _ _ _ _ _ _
                (physicsStep_InRange _ _ _ h0))
          · rw [if_neg hcl]
            exact checkFallStep_InRange _ _ _
              (setBalanceZero_InRange _ (physicsStep_InRange _ _ _ h0))
        · rw [if_neg hdrag]
          by_cases hcl : (withVelocity inp.prevCOM inp.safeDt inp.state).status =
              .climbing ∧ (!cfg.isUserDragging) = true
          · rw [if_pos hcl]
            exact checkFallStep_InRange _ _ _
              (gameLogicStep_InRange _ _ _ _ _ _ _ h0)
          · rw [if_neg hcl]
            exact checkFallStep_InRange _ _ _ (setBalanceZero_InRange _ h0)

/-- Every reachable climber state already satisfies the clamping
invariant. -/
theorem reachable_InRange {s : ClimberState} (h : Reachable s) : InRange s := by
  induction h with
  | init g => exact initClimber_InRange g
  | tickStep cfg prevCOM acc safeDt hs ih => exact tick_InRange cfg _ ih
  | placeLimb holds val limb hs ih => exact handlePlaceLimb_InRange _ _ _ _ ih
  | chalkUp hs ih => exact chalkKeyStep_InRange _ ih
  | setCOM p hs ih => exact ih

/-- C3: after any tick from any reachable state, `stamina`, `chalk`,
`armPump.left`, `armPump.right` and `balance` all lie in `[0, 100]`
(the tick clamps every mutation of these fields). -/
theorem reachable_tick_clamped (cfg : TickConfig) (prevCOM : Point)
    (acc safeDt : ℝ) {s : ClimberState} (hs : Reachable s) :
    InRange (tick cfg ⟨s, prevCOM, acc, safeDt⟩).state :=
  tick_InRange cfg ⟨s, prevCOM, acc, safeDt⟩ (reachable_InRange hs)

def clampCfg : TickConfig := ⟨[], 0, 100, false, false, false⟩

theorem reachable_tick_clamped_witness :
    InRange (tick clampCfg ⟨initClimber 100, ⟨50, 86⟩, 0, 16⟩).state :=
  reachable_tick_clamped clampCfg ⟨50, 86⟩ 0 16 (Reachable.init 100)

end Boulder
